import Mathlib

set_option maxHeartbeats 1000000
set_option maxRecDepth 8000

/-!
Shallow embedding of the marching-cubes mesher of `my-lib` (files
`mesh.rs`, `noise.rs`, `lib.rs`).  The machine type `f32` is modelled by the
exact rationals; the two transcendental primitives used by the code,
`f32::sqrt` and `f32::sin`, are taken as explicit function parameters
(`sqrtF`, `sinF`), since no verified property depends on their values.
Rust `Vec` buffers are modelled by `List`; a slice read is modelled by
`List.getD` (the out-of-range default is inert: every property guards the
lattice shape where a read could go out of range).
-/

/-- The 256-entry marching-cubes edge table (`mesh.rs`, `EDGE_TABLE_DATA`). -/
def EDGE_TABLE_DATA : List Nat := [
  0x0, 0x109, 0x203, 0x30a, 0x406, 0x50f, 0x605, 0x70c, 0x80c, 0x905, 0xa0f, 0xb06, 0xc0a, 0xd03,
  0xe09, 0xf00, 0x190, 0x99, 0x393, 0x29a, 0x596, 0x49f, 0x795, 0x69c, 0x99c, 0x895, 0xb9f, 0xa96,
  0xd9a, 0xc93, 0xf99, 0xe90, 0x230, 0x339, 0x33, 0x13a, 0x636, 0x73f, 0x435, 0x53c, 0xa3c, 0xb35,
  0x83f, 0x936, 0xe3a, 0xf33, 0xc39, 0xd30, 0x3a0, 0x2a9, 0x1a3, 0xaa, 0x7a6, 0x6af, 0x5a5, 0x4ac,
  0xbac, 0xaa5, 0x9af, 0x8a6, 0xfaa, 0xea3, 0xda9, 0xca0, 0x460, 0x569, 0x663, 0x76a, 0x66, 0x16f,
  0x265, 0x36c, 0xc6c, 0xd65, 0xe6f, 0xf66, 0x86a, 0x963, 0xa69, 0xb60, 0x5f0, 0x4f9, 0x7f3, 0x6fa,
  0x1f6, 0xff, 0x3f5, 0x2fc, 0xdfc, 0xcf5, 0xfff, 0xef6, 0x9fa, 0x8f3, 0xbf9, 0xaf0, 0x650, 0x759,
  0x453, 0x55a, 0x256, 0x35f, 0x55, 0x15c, 0xe5c, 0xf55, 0xc5f, 0xd56, 0xa5a, 0xb53, 0x859, 0x950,
  0x7c0, 0x6c9, 0x5c3, 0x4ca, 0x3c6, 0x2cf, 0x1c5, 0xcc, 0xfcc, 0xec5, 0xdcf, 0xcc6, 0xbca, 0xac3,
  0x9c9, 0x8c0, 0x8c0, 0x9c9, 0xac3, 0xbca, 0xcc6, 0xdcf, 0xec5, 0xfcc, 0xcc, 0x1c5, 0x2cf, 0x3c6,
  0x4ca, 0x5c3, 0x6c9, 0x7c0, 0x950, 0x859, 0xb53, 0xa5a, 0xd56, 0xc5f, 0xf55, 0xe5c, 0x15c, 0x55,
  0x35f, 0x256, 0x55a, 0x453, 0x759, 0x650, 0xaf0, 0xbf9, 0x8f3, 0x9fa, 0xef6, 0xfff, 0xcf5, 0xdfc,
  0x2fc, 0x3f5, 0xff, 0x1f6, 0x6fa, 0x7f3, 0x4f9, 0x5f0, 0xb60, 0xa69, 0x963, 0x86a, 0xf66, 0xe6f,
  0xd65, 0xc6c, 0x36c, 0x265, 0x16f, 0x66, 0x76a, 0x663, 0x569, 0x460, 0xca0, 0xda9, 0xea3, 0xfaa,
  0x8a6, 0x9af, 0xaa5, 0xbac, 0x4ac, 0x5a5, 0x6af, 0x7a6, 0xaa, 0x1a3, 0x2a9, 0x3a0, 0xd30, 0xc39,
  0xf33, 0xe3a, 0x936, 0x83f, 0xb35, 0xa3c, 0x53c, 0x435, 0x73f, 0x636, 0x13a, 0x33, 0x339, 0x230,
  0xe90, 0xf99, 0xc93, 0xd9a, 0xa96, 0xb9f, 0x895, 0x99c, 0x69c, 0x795, 0x49f, 0x596, 0x29a, 0x393,
  0x99, 0x190, 0xf00, 0xe09, 0xd03, 0xc0a, 0xb06, 0xa0f, 0x905, 0x80c, 0x70c, 0x605, 0x50f, 0x406,
  0x30a, 0x203, 0x109, 0x0]

/-- Rows 0-31 of the triangle table (`mesh.rs`, `TRIANGLE_TABLE_DATA`). -/
def TRI_TABLE_0 : List Int := [
  -1, -1, -1, -1, -1, -1, -1, -1, -1, -1, -1, -1, -1, -1, -1, -1, 0, 8, 3, -1, -1, -1, -1, -1, -1, -1, -1, -1, -1, -1,
  -1, -1, 0, 1, 9, -1, -1, -1, -1, -1, -1, -1, -1, -1, -1, -1, -1, -1, 1, 8, 3, 9, 8, 1, -1, -1, -1, -1, -1, -1,
  -1, -1, -1, -1, 1, 2, 10, -1, -1, -1, -1, -1, -1, -1, -1, -1, -1, -1, -1, -1, 0, 8, 3, 1, 2, 10, -1, -1, -1, -1,
  -1, -1, -1, -1, -1, -1, 9, 2, 10, 0, 2, 9, -1, -1, -1, -1, -1, -1, -1, -1, -1, -1, 2, 8, 3, 2, 10, 8, 10, 9,
  8, -1, -1, -1, -1, -1, -1, -1, 3, 11, 2, -1, -1, -1, -1, -1, -1, -1, -1, -1, -1, -1, -1, -1, 0, 11, 2, 8, 11, 0,
  -1, -1, -1, -1, -1, -1, -1, -1, -1, -1, 1, 9, 0, 2, 3, 11, -1, -1, -1, -1, -1, -1, -1, -1, -1, -1, 1, 11, 2, 1,
  9, 11, 9, 8, 11, -1, -1, -1, -1, -1, -1, -1, 3, 10, 1, 11, 10, 3, -1, -1, -1, -1, -1, -1, -1, -1, -1, -1, 0, 10,
  1, 0, 8, 10, 8, 11, 10, -1, -1, -1, -1, -1, -1, -1, 3, 9, 0, 3, 11, 9, 11, 10, 9, -1, -1, -1, -1, -1, -1, -1,
  9, 8, 10, 10, 8, 11, -1, -1, -1, -1, -1, -1, -1, -1, -1, -1, 4, 7, 8, -1, -1, -1, -1, -1, -1, -1, -1, -1, -1, -1,
  -1, -1, 4, 3, 0, 7, 3, 4, -1, -1, -1, -1, -1, -1, -1, -1, -1, -1, 0, 1, 9, 8, 4, 7, -1, -1, -1, -1, -1, -1,
  -1, -1, -1, -1, 4, 1, 9, 4, 7, 1, 7, 3, 1, -1, -1, -1, -1, -1, -1, -1, 1, 2, 10, 8, 4, 7, -1, -1, -1, -1,
  -1, -1, -1, -1, -1, -1, 3, 4, 7, 3, 0, 4, 1, 2, 10, -1, -1, -1, -1, -1, -1, -1, 9, 2, 10, 9, 0, 2, 8, 4,
  7, -1, -1, -1, -1, -1, -1, -1, 2, 10, 9, 2, 9, 7, 2, 7, 3, 7, 9, 4, -1, -1, -1, -1, 8, 4, 7, 3, 11, 2,
  -1, -1, -1, -1, -1, -1, -1, -1, -1, -1, 11, 4, 7, 11, 2, 4, 2, 0, 4, -1, -1, -1, -1, -1, -1, -1, 9, 0, 1, 8,
  4, 7, 2, 3, 11, -1, -1, -1, -1, -1, -1, -1, 4, 7, 11, 9, 4, 11, 9, 11, 2, 9, 2, 1, -1, -1, -1, -1, 3, 10,
  1, 3, 11, 10, 7, 8, 4, -1, -1, -1, -1, -1, -1, -1, 1, 11, 10, 1, 4, 11, 1, 0, 4, 7, 11, 4, -1, -1, -1, -1,
  4, 7, 8, 9, 0, 11, 9, 11, 10, 11, 0, 3, -1, -1, -1, -1, 4, 7, 11, 4, 11, 9, 9, 11, 10, -1, -1, -1, -1, -1,
  -1, -1]

/-- Rows 32-63 of the triangle table (`mesh.rs`, `TRIANGLE_TABLE_DATA`). -/
def TRI_TABLE_1 : List Int := [
  9, 5, 4, -1, -1, -1, -1, -1, -1, -1, -1, -1, -1, -1, -1, -1, 9, 5, 4, 0, 8, 3, -1, -1, -1, -1, -1, -1, -1, -1,
  -1, -1, 0, 5, 4, 1, 5, 0, -1, -1, -1, -1, -1, -1, -1, -1, -1, -1, 8, 5, 4, 8, 3, 5, 3, 1, 5, -1, -1, -1,
  -1, -1, -1, -1, 1, 2, 10, 9, 5, 4, -1, -1, -1, -1, -1, -1, -1, -1, -1, -1, 3, 0, 8, 1, 2, 10, 4, 9, 5, -1,
  -1, -1, -1, -1, -1, -1, 5, 2, 10, 5, 4, 2, 4, 0, 2, -1, -1, -1, -1, -1, -1, -1, 2, 10, 5, 3, 2, 5, 3, 5,
  4, 3, 4, 8, -1, -1, -1, -1, 9, 5, 4, 2, 3, 11, -1, -1, -1, -1, -1, -1, -1, -1, -1, -1, 0, 11, 2, 0, 8, 11,
  4, 9, 5, -1, -1, -1, -1, -1, -1, -1, 0, 5, 4, 0, 1, 5, 2, 3, 11, -1, -1, -1, -1, -1, -1, -1, 2, 1, 5, 2,
  5, 8, 2, 8, 11, 4, 8, 5, -1, -1, -1, -1, 10, 3, 11, 10, 1, 3, 9, 5, 4, -1, -1, -1, -1, -1, -1, -1, 4, 9,
  5, 0, 8, 1, 8, 10, 1, 8, 11, 10, -1, -1, -1, -1, 5, 4, 0, 5, 0, 11, 5, 11, 10, 11, 0, 3, -1, -1, -1, -1,
  5, 4, 8, 5, 8, 10, 10, 8, 11, -1, -1, -1, -1, -1, -1, -1, 9, 7, 8, 5, 7, 9, -1, -1, -1, -1, -1, -1, -1, -1,
  -1, -1, 9, 3, 0, 9, 5, 3, 5, 7, 3, -1, -1, -1, -1, -1, -1, -1, 0, 7, 8, 0, 1, 7, 1, 5, 7, -1, -1, -1,
  -1, -1, -1, -1, 1, 5, 3, 3, 5, 7, -1, -1, -1, -1, -1, -1, -1, -1, -1, -1, 9, 7, 8, 9, 5, 7, 10, 1, 2, -1,
  -1, -1, -1, -1, -1, -1, 10, 1, 2, 9, 5, 0, 5, 3, 0, 5, 7, 3, -1, -1, -1, -1, 8, 0, 2, 8, 2, 5, 8, 5,
  7, 10, 5, 2, -1, -1, -1, -1, 2, 10, 5, 2, 5, 3, 3, 5, 7, -1, -1, -1, -1, -1, -1, -1, 7, 9, 5, 7, 8, 9,
  3, 11, 2, -1, -1, -1, -1, -1, -1, -1, 9, 5, 7, 9, 7, 2, 9, 2, 0, 2, 7, 11, -1, -1, -1, -1, 2, 3, 11, 0,
  1, 8, 1, 7, 8, 1, 5, 7, -1, -1, -1, -1, 11, 2, 1, 11, 1, 7, 7, 1, 5, -1, -1, -1, -1, -1, -1, -1, 9, 5,
  8, 8, 5, 7, 10, 1, 3, 10, 3, 11, -1, -1, -1, -1, 5, 7, 0, 5, 0, 9, 7, 11, 0, 1, 0, 10, 11, 10, 0, -1,
  11, 10, 0, 11, 0, 3, 10, 5, 0, 8, 0, 7, 5, 7, 0, -1, 11, 10, 5, 7, 11, 5, -1, -1, -1, -1, -1, -1, -1, -1,
  -1, -1]

/-- Rows 64-95 of the triangle table (`mesh.rs`, `TRIANGLE_TABLE_DATA`). -/
def TRI_TABLE_2 : List Int := [
  10, 6, 5, -1, -1, -1, -1, -1, -1, -1, -1, -1, -1, -1, -1, -1, 0, 8, 3, 5, 10, 6, -1, -1, -1, -1, -1, -1, -1, -1,
  -1, -1, 9, 0, 1, 5, 10, 6, -1, -1, -1, -1, -1, -1, -1, -1, -1, -1, 1, 8, 3, 1, 9, 8, 5, 10, 6, -1, -1, -1,
  -1, -1, -1, -1, 1, 6, 5, 2, 6, 1, -1, -1, -1, -1, -1, -1, -1, -1, -1, -1, 1, 6, 5, 1, 2, 6, 3, 0, 8, -1,
  -1, -1, -1, -1, -1, -1, 9, 6, 5, 9, 0, 6, 0, 2, 6, -1, -1, -1, -1, -1, -1, -1, 5, 9, 8, 5, 8, 2, 5, 2,
  6, 3, 2, 8, -1, -1, -1, -1, 2, 3, 11, 10, 6, 5, -1, -1, -1, -1, -1, -1, -1, -1, -1, -1, 11, 0, 8, 11, 2, 0,
  10, 6, 5, -1, -1, -1, -1, -1, -1, -1, 0, 1, 9, 2, 3, 11, 5, 10, 6, -1, -1, -1, -1, -1, -1, -1, 5, 10, 6, 1,
  9, 2, 9, 11, 2, 9, 8, 11, -1, -1, -1, -1, 6, 3, 11, 6, 5, 3, 5, 1, 3, -1, -1, -1, -1, -1, -1, -1, 0, 8,
  11, 0, 11, 5, 0, 5, 1, 5, 11, 6, -1, -1, -1, -1, 3, 11, 6, 0, 3, 6, 0, 6, 5, 0, 5, 9, -1, -1, -1, -1,
  6, 5, 9, 6, 9, 11, 11, 9, 8, -1, -1, -1, -1, -1, -1, -1, 5, 10, 6, 4, 7, 8, -1, -1, -1, -1, -1, -1, -1, -1,
  -1, -1, 4, 3, 0, 4, 7, 3, 6, 5, 10, -1, -1, -1, -1, -1, -1, -1, 1, 9, 0, 5, 10, 6, 8, 4, 7, -1, -1, -1,
  -1, -1, -1, -1, 10, 6, 5, 1, 9, 7, 1, 7, 3, 7, 9, 4, -1, -1, -1, -1, 6, 1, 2, 6, 5, 1, 4, 7, 8, -1,
  -1, -1, -1, -1, -1, -1, 1, 2, 5, 5, 2, 6, 3, 0, 4, 3, 4, 7, -1, -1, -1, -1, 8, 4, 7, 9, 0, 5, 0, 6,
  5, 0, 2, 6, -1, -1, -1, -1, 7, 3, 9, 7, 9, 4, 3, 2, 9, 5, 9, 6, 2, 6, 9, -1, 3, 11, 2, 7, 8, 4,
  10, 6, 5, -1, -1, -1, -1, -1, -1, -1, 5, 10, 6, 4, 7, 2, 4, 2, 0, 2, 7, 11, -1, -1, -1, -1, 0, 1, 9, 4,
  7, 8, 2, 3, 11, 5, 10, 6, -1, -1, -1, -1, 9, 2, 1, 9, 11, 2, 9, 4, 11, 7, 11, 4, 5, 10, 6, -1, 8, 4,
  7, 3, 11, 5, 3, 5, 1, 5, 11, 6, -1, -1, -1, -1, 5, 1, 11, 5, 11, 6, 1, 0, 11, 7, 11, 4, 0, 4, 11, -1,
  0, 5, 9, 0, 6, 5, 0, 3, 6, 11, 6, 3, 8, 4, 7, -1, 6, 5, 9, 6, 9, 11, 4, 7, 9, 7, 11, 9, -1, -1,
  -1, -1]

/-- Rows 96-127 of the triangle table (`mesh.rs`, `TRIANGLE_TABLE_DATA`). -/
def TRI_TABLE_3 : List Int := [
  10, 4, 9, 6, 4, 10, -1, -1, -1, -1, -1, -1, -1, -1, -1, -1, 4, 10, 6, 4, 9, 10, 0, 8, 3, -1, -1, -1, -1, -1,
  -1, -1, 10, 0, 1, 10, 6, 0, 6, 4, 0, -1, -1, -1, -1, -1, -1, -1, 8, 3, 1, 8, 1, 6, 8, 6, 4, 6, 1, 10,
  -1, -1, -1, -1, 1, 4, 9, 1, 2, 4, 2, 6, 4, -1, -1, -1, -1, -1, -1, -1, 3, 0, 8, 1, 2, 9, 2, 4, 9, 2,
  6, 4, -1, -1, -1, -1, 0, 2, 4, 4, 2, 6, -1, -1, -1, -1, -1, -1, -1, -1, -1, -1, 8, 3, 2, 8, 2, 4, 4, 2,
  6, -1, -1, -1, -1, -1, -1, -1, 10, 4, 9, 10, 6, 4, 11, 2, 3, -1, -1, -1, -1, -1, -1, -1, 0, 8, 2, 2, 8, 11,
  4, 9, 10, 4, 10, 6, -1, -1, -1, -1, 3, 11, 2, 0, 1, 6, 0, 6, 4, 6, 1, 10, -1, -1, -1, -1, 6, 4, 1, 6,
  1, 10, 4, 8, 1, 2, 1, 11, 8, 11, 1, -1, 9, 6, 4, 9, 3, 6, 9, 1, 3, 11, 6, 3, -1, -1, -1, -1, 8, 11,
  1, 8, 1, 0, 11, 6, 1, 9, 1, 4, 6, 4, 1, -1, 3, 11, 6, 3, 6, 0, 0, 6, 4, -1, -1, -1, -1, -1, -1, -1,
  6, 4, 8, 11, 6, 8, -1, -1, -1, -1, -1, -1, -1, -1, -1, -1, 7, 10, 6, 7, 8, 10, 8, 9, 10, -1, -1, -1, -1, -1,
  -1, -1, 0, 7, 3, 0, 10, 7, 0, 9, 10, 6, 7, 10, -1, -1, -1, -1, 10, 6, 7, 1, 10, 7, 1, 7, 8, 1, 8, 0,
  -1, -1, -1, -1, 10, 6, 7, 10, 7, 1, 1, 7, 3, -1, -1, -1, -1, -1, -1, -1, 1, 2, 6, 1, 6, 8, 1, 8, 9, 8,
  6, 7, -1, -1, -1, -1, 2, 6, 9, 2, 9, 1, 6, 7, 9, 0, 9, 3, 7, 3, 9, -1, 7, 8, 0, 7, 0, 6, 6, 0,
  2, -1, -1, -1, -1, -1, -1, -1, 7, 3, 2, 6, 7, 2, -1, -1, -1, -1, -1, -1, -1, -1, -1, -1, 2, 3, 11, 10, 6, 8,
  10, 8, 9, 8, 6, 7, -1, -1, -1, -1, 2, 0, 7, 2, 7, 11, 0, 9, 7, 6, 7, 10, 9, 10, 7, -1, 1, 8, 0, 1,
  7, 8, 1, 10, 7, 6, 7, 10, 2, 3, 11, -1, 11, 2, 1, 11, 1, 7, 10, 6, 1, 6, 7, 1, -1, -1, -1, -1, 8, 9,
  6, 8, 6, 7, 9, 1, 6, 11, 6, 3, 1, 3, 6, -1, 0, 9, 1, 11, 6, 7, -1, -1, -1, -1, -1, -1, -1, -1, -1, -1,
  7, 8, 0, 7, 0, 6, 3, 11, 0, 11, 6, 0, -1, -1, -1, -1, 7, 11, 6, -1, -1, -1, -1, -1, -1, -1, -1, -1, -1, -1,
  -1, -1]

/-- Rows 128-159 of the triangle table (`mesh.rs`, `TRIANGLE_TABLE_DATA`). -/
def TRI_TABLE_4 : List Int := [
  7, 6, 11, -1, -1, -1, -1, -1, -1, -1, -1, -1, -1, -1, -1, -1, 3, 0, 8, 11, 7, 6, -1, -1, -1, -1, -1, -1, -1, -1,
  -1, -1, 0, 1, 9, 11, 7, 6, -1, -1, -1, -1, -1, -1, -1, -1, -1, -1, 8, 1, 9, 8, 3, 1, 11, 7, 6, -1, -1, -1,
  -1, -1, -1, -1, 10, 1, 2, 6, 11, 7, -1, -1, -1, -1, -1, -1, -1, -1, -1, -1, 1, 2, 10, 3, 0, 8, 6, 11, 7, -1,
  -1, -1, -1, -1, -1, -1, 2, 9, 0, 2, 10, 9, 6, 11, 7, -1, -1, -1, -1, -1, -1, -1, 6, 11, 7, 2, 10, 3, 10, 8,
  3, 10, 9, 8, -1, -1, -1, -1, 7, 2, 3, 6, 2, 7, -1, -1, -1, -1, -1, -1, -1, -1, -1, -1, 7, 0, 8, 7, 6, 0,
  6, 2, 0, -1, -1, -1, -1, -1, -1, -1, 2, 7, 6, 2, 3, 7, 0, 1, 9, -1, -1, -1, -1, -1, -1, -1, 1, 6, 2, 1,
  8, 6, 1, 9, 8, 8, 7, 6, -1, -1, -1, -1, 10, 7, 6, 10, 1, 7, 1, 3, 7, -1, -1, -1, -1, -1, -1, -1, 10, 7,
  6, 1, 7, 10, 1, 8, 7, 1, 0, 8, -1, -1, -1, -1, 0, 3, 7, 0, 7, 10, 0, 10, 9, 6, 10, 7, -1, -1, -1, -1,
  7, 6, 10, 7, 10, 8, 8, 10, 9, -1, -1, -1, -1, -1, -1, -1, 6, 8, 4, 11, 8, 6, -1, -1, -1, -1, -1, -1, -1, -1,
  -1, -1, 3, 6, 11, 3, 0, 6, 0, 4, 6, -1, -1, -1, -1, -1, -1, -1, 8, 6, 11, 8, 4, 6, 9, 0, 1, -1, -1, -1,
  -1, -1, -1, -1, 9, 4, 6, 9, 6, 3, 9, 3, 1, 11, 3, 6, -1, -1, -1, -1, 6, 8, 4, 6, 11, 8, 2, 10, 1, -1,
  -1, -1, -1, -1, -1, -1, 1, 2, 10, 3, 0, 11, 0, 6, 11, 0, 4, 6, -1, -1, -1, -1, 4, 11, 8, 4, 6, 11, 0, 2,
  9, 2, 10, 9, -1, -1, -1, -1, 10, 9, 3, 10, 3, 2, 9, 4, 3, 11, 3, 6, 4, 6, 3, -1, 8, 2, 3, 8, 4, 2,
  4, 6, 2, -1, -1, -1, -1, -1, -1, -1, 0, 4, 2, 4, 6, 2, -1, -1, -1, -1, -1, -1, -1, -1, -1, -1, 1, 9, 0, 2,
  3, 4, 2, 4, 6, 4, 3, 8, -1, -1, -1, -1, 1, 9, 4, 1, 4, 2, 2, 4, 6, -1, -1, -1, -1, -1, -1, -1, 8, 1,
  3, 8, 6, 1, 8, 4, 6, 6, 10, 1, -1, -1, -1, -1, 10, 1, 0, 10, 0, 6, 6, 0, 4, -1, -1, -1, -1, -1, -1, -1,
  4, 6, 3, 4, 3, 8, 6, 10, 3, 0, 3, 9, 10, 9, 3, -1, 10, 9, 4, 6, 10, 4, -1, -1, -1, -1, -1, -1, -1, -1,
  -1, -1]

/-- Rows 160-191 of the triangle table (`mesh.rs`, `TRIANGLE_TABLE_DATA`). -/
def TRI_TABLE_5 : List Int := [
  4, 9, 5, 7, 6, 11, -1, -1, -1, -1, -1, -1, -1, -1, -1, -1, 0, 8, 3, 4, 9, 5, 11, 7, 6, -1, -1, -1, -1, -1,
  -1, -1, 5, 0, 1, 5, 4, 0, 7, 6, 11, -1, -1, -1, -1, -1, -1, -1, 11, 7, 6, 8, 3, 4, 3, 5, 4, 3, 1, 5,
  -1, -1, -1, -1, 9, 5, 4, 10, 1, 2, 7, 6, 11, -1, -1, -1, -1, -1, -1, -1, 6, 11, 7, 1, 2, 10, 0, 8, 3, 4,
  9, 5, -1, -1, -1, -1, 7, 6, 11, 5, 4, 10, 4, 2, 10, 4, 0, 2, -1, -1, -1, -1, 3, 4, 8, 3, 5, 4, 3, 2,
  5, 10, 5, 2, 11, 7, 6, -1, 7, 2, 3, 7, 6, 2, 5, 4, 9, -1, -1, -1, -1, -1, -1, -1, 9, 5, 4, 0, 8, 6,
  0, 6, 2, 6, 8, 7, -1, -1, -1, -1, 3, 6, 2, 3, 7, 6, 1, 5, 0, 5, 4, 0, -1, -1, -1, -1, 6, 2, 8, 6,
  8, 7, 2, 1, 8, 4, 8, 5, 1, 5, 8, -1, 9, 5, 4, 10, 1, 6, 1, 7, 6, 1, 3, 7, -1, -1, -1, -1, 1, 6,
  10, 1, 7, 6, 1, 0, 7, 8, 7, 0, 9, 5, 4, -1, 4, 0, 10, 4, 10, 5, 0, 3, 10, 6, 10, 7, 3, 7, 10, -1,
  7, 6, 10, 7, 10, 8, 5, 4, 10, 4, 8, 10, -1, -1, -1, -1, 6, 9, 5, 6, 11, 9, 11, 8, 9, -1, -1, -1, -1, -1,
  -1, -1, 3, 6, 11, 0, 6, 3, 0, 5, 6, 0, 9, 5, -1, -1, -1, -1, 0, 11, 8, 0, 5, 11, 0, 1, 5, 5, 6, 11,
  -1, -1, -1, -1, 6, 11, 3, 6, 3, 5, 5, 3, 1, -1, -1, -1, -1, -1, -1, -1, 1, 2, 10, 9, 5, 11, 9, 11, 8, 11,
  5, 6, -1, -1, -1, -1, 0, 11, 3, 0, 6, 11, 0, 9, 6, 5, 6, 9, 1, 2, 10, -1, 11, 8, 5, 11, 5, 6, 8, 0,
  5, 10, 5, 2, 0, 2, 5, -1, 6, 11, 3, 6, 3, 5, 2, 10, 3, 10, 5, 3, -1, -1, -1, -1, 5, 8, 9, 5, 2, 8,
  5, 6, 2, 3, 8, 2, -1, -1, -1, -1, 9, 5, 6, 9, 6, 0, 0, 6, 2, -1, -1, -1, -1, -1, -1, -1, 1, 5, 8, 1,
  8, 0, 5, 6, 8, 3, 8, 2, 6, 2, 8, -1, 1, 5, 6, 2, 1, 6, -1, -1, -1, -1, -1, -1, -1, -1, -1, -1, 1, 3,
  6, 1, 6, 10, 3, 8, 6, 5, 6, 9, 8, 9, 6, -1, 10, 1, 0, 10, 0, 6, 9, 5, 0, 5, 6, 0, -1, -1, -1, -1,
  0, 3, 8, 5, 6, 10, -1, -1, -1, -1, -1, -1, -1, -1, -1, -1, 10, 5, 6, -1, -1, -1, -1, -1, -1, -1, -1, -1, -1, -1,
  -1, -1]

/-- Rows 192-223 of the triangle table (`mesh.rs`, `TRIANGLE_TABLE_DATA`). -/
def TRI_TABLE_6 : List Int := [
  11, 5, 10, 7, 5, 11, -1, -1, -1, -1, -1, -1, -1, -1, -1, -1, 11, 5, 10, 11, 7, 5, 8, 3, 0, -1, -1, -1, -1, -1,
  -1, -1, 5, 11, 7, 5, 10, 11, 1, 9, 0, -1, -1, -1, -1, -1, -1, -1, 10, 7, 5, 10, 11, 7, 9, 8, 1, 8, 3, 1,
  -1, -1, -1, -1, 11, 1, 2, 11, 7, 1, 7, 5, 1, -1, -1, -1, -1, -1, -1, -1, 0, 8, 3, 1, 2, 7, 1, 7, 5, 7,
  2, 11, -1, -1, -1, -1, 9, 7, 5, 9, 2, 7, 9, 0, 2, 2, 11, 7, -1, -1, -1, -1, 7, 5, 2, 7, 2, 11, 5, 9,
  2, 3, 2, 8, 9, 8, 2, -1, 2, 5, 10, 2, 3, 5, 3, 7, 5, -1, -1, -1, -1, -1, -1, -1, 8, 2, 0, 8, 5, 2,
  8, 7, 5, 10, 2, 5, -1, -1, -1, -1, 9, 0, 1, 5, 10, 3, 5, 3, 7, 3, 10, 2, -1, -1, -1, -1, 9, 8, 2, 9,
  2, 1, 8, 7, 2, 10, 2, 5, 7, 5, 2, -1, 1, 3, 5, 3, 7, 5, -1, -1, -1, -1, -1, -1, -1, -1, -1, -1, 0, 8,
  7, 0, 7, 1, 1, 7, 5, -1, -1, -1, -1, -1, -1, -1, 9, 0, 3, 9, 3, 5, 5, 3, 7, -1, -1, -1, -1, -1, -1, -1,
  9, 8, 7, 5, 9, 7, -1, -1, -1, -1, -1, -1, -1, -1, -1, -1, 5, 8, 4, 5, 10, 8, 10, 11, 8, -1, -1, -1, -1, -1,
  -1, -1, 5, 0, 4, 5, 11, 0, 5, 10, 11, 11, 3, 0, -1, -1, -1, -1, 0, 1, 9, 8, 4, 10, 8, 10, 11, 10, 4, 5,
  -1, -1, -1, -1, 10, 11, 4, 10, 4, 5, 11, 3, 4, 9, 4, 1, 3, 1, 4, -1, 2, 5, 1, 2, 8, 5, 2, 11, 8, 4,
  5, 8, -1, -1, -1, -1, 0, 4, 11, 0, 11, 3, 4, 5, 11, 2, 11, 1, 5, 1, 11, -1, 0, 2, 5, 0, 5, 9, 2, 11,
  5, 4, 5, 8, 11, 8, 5, -1, 9, 4, 5, 2, 11, 3, -1, -1, -1, -1, -1, -1, -1, -1, -1, -1, 2, 5, 10, 3, 5, 2,
  3, 4, 5, 3, 8, 4, -1, -1, -1, -1, 5, 10, 2, 5, 2, 4, 4, 2, 0, -1, -1, -1, -1, -1, -1, -1, 3, 10, 2, 3,
  5, 10, 3, 8, 5, 4, 5, 8, 0, 1, 9, -1, 5, 10, 2, 5, 2, 4, 1, 9, 2, 9, 4, 2, -1, -1, -1, -1, 8, 4,
  5, 8, 5, 3, 3, 5, 1, -1, -1, -1, -1, -1, -1, -1, 0, 4, 5, 1, 0, 5, -1, -1, -1, -1, -1, -1, -1, -1, -1, -1,
  8, 4, 5, 8, 5, 3, 9, 0, 5, 0, 3, 5, -1, -1, -1, -1, 9, 4, 5, -1, -1, -1, -1, -1, -1, -1, -1, -1, -1, -1,
  -1, -1]

/-- Rows 224-255 of the triangle table (`mesh.rs`, `TRIANGLE_TABLE_DATA`). -/
def TRI_TABLE_7 : List Int := [
  4, 11, 7, 4, 9, 11, 9, 10, 11, -1, -1, -1, -1, -1, -1, -1, 0, 8, 3, 4, 9, 7, 9, 11, 7, 9, 10, 11, -1, -1,
  -1, -1, 1, 10, 11, 1, 11, 4, 1, 4, 0, 7, 4, 11, -1, -1, -1, -1, 3, 1, 4, 3, 4, 8, 1, 10, 4, 7, 4, 11,
  10, 11, 4, -1, 4, 11, 7, 9, 11, 4, 9, 2, 11, 9, 1, 2, -1, -1, -1, -1, 9, 7, 4, 9, 11, 7, 9, 1, 11, 2,
  11, 1, 0, 8, 3, -1, 11, 7, 4, 11, 4, 2, 2, 4, 0, -1, -1, -1, -1, -1, -1, -1, 11, 7, 4, 11, 4, 2, 8, 3,
  4, 3, 2, 4, -1, -1, -1, -1, 2, 9, 10, 2, 7, 9, 2, 3, 7, 7, 4, 9, -1, -1, -1, -1, 9, 10, 7, 9, 7, 4,
  10, 2, 7, 8, 7, 0, 2, 0, 7, -1, 3, 7, 10, 3, 10, 2, 7, 4, 10, 1, 10, 0, 4, 0, 10, -1, 1, 10, 2, 8,
  7, 4, -1, -1, -1, -1, -1, -1, -1, -1, -1, -1, 4, 9, 1, 4, 1, 7, 7, 1, 3, -1, -1, -1, -1, -1, -1, -1, 4, 9,
  1, 4, 1, 7, 0, 8, 1, 8, 7, 1, -1, -1, -1, -1, 4, 0, 3, 7, 4, 3, -1, -1, -1, -1, -1, -1, -1, -1, -1, -1,
  4, 8, 7, -1, -1, -1, -1, -1, -1, -1, -1, -1, -1, -1, -1, -1, 9, 10, 8, 10, 11, 8, -1, -1, -1, -1, -1, -1, -1, -1,
  -1, -1, 3, 0, 9, 3, 9, 11, 11, 9, 10, -1, -1, -1, -1, -1, -1, -1, 0, 1, 10, 0, 10, 8, 8, 10, 11, -1, -1, -1,
  -1, -1, -1, -1, 3, 1, 10, 11, 3, 10, -1, -1, -1, -1, -1, -1, -1, -1, -1, -1, 1, 2, 11, 1, 11, 9, 9, 11, 8, -1,
  -1, -1, -1, -1, -1, -1, 3, 0, 9, 3, 9, 11, 1, 2, 9, 2, 11, 9, -1, -1, -1, -1, 0, 2, 11, 8, 0, 11, -1, -1,
  -1, -1, -1, -1, -1, -1, -1, -1, 3, 2, 11, -1, -1, -1, -1, -1, -1, -1, -1, -1, -1, -1, -1, -1, 2, 3, 8, 2, 8, 10,
  10, 8, 9, -1, -1, -1, -1, -1, -1, -1, 9, 10, 2, 0, 9, 2, -1, -1, -1, -1, -1, -1, -1, -1, -1, -1, 2, 3, 8, 2,
  8, 10, 0, 1, 8, 1, 10, 8, -1, -1, -1, -1, 1, 10, 2, -1, -1, -1, -1, -1, -1, -1, -1, -1, -1, -1, -1, -1, 1, 3,
  8, 9, 1, 8, -1, -1, -1, -1, -1, -1, -1, -1, -1, -1, 0, 9, 1, -1, -1, -1, -1, -1, -1, -1, -1, -1, -1, -1, -1, -1,
  0, 3, 8, -1, -1, -1, -1, -1, -1, -1, -1, -1, -1, -1, -1, -1, -1, -1, -1, -1, -1, -1, -1, -1, -1, -1, -1, -1, -1, -1,
  -1, -1]

/-- The 4096-entry marching-cubes triangle table (`mesh.rs`, `TRIANGLE_TABLE_DATA`), 16 flat entries per configuration. -/
def TRIANGLE_TABLE_DATA : List Int :=
  TRI_TABLE_0 ++ TRI_TABLE_1 ++ TRI_TABLE_2 ++ TRI_TABLE_3 ++ TRI_TABLE_4 ++ TRI_TABLE_5 ++ TRI_TABLE_6 ++ TRI_TABLE_7

/-- Voxel sample: density together with a packed RGBA colour (`mesh.rs`,
struct `VoxelData`). -/
structure VoxelData where
  density : ℚ
  color : Nat
deriving DecidableEq

/-- Unit-cube corner offsets (`mesh.rs`, `CUBE_VERTICES`; the source stores
them as `f32` triples whose entries are exactly 0.0 or 1.0 and also reads
them back as `i32`, so an integer triple represents them exactly). -/
def CUBE_VERTICES : List (Int × Int × Int) :=
  [(0, 0, 0), (1, 0, 0), (1, 1, 0), (0, 1, 0), (0, 0, 1), (1, 0, 1), (1, 1, 1), (0, 1, 1)]

/-- Corner pairs of the 12 cube edges (`mesh.rs`, `EDGE_VERTICES`). -/
def EDGE_VERTICES : List (Nat × Nat) :=
  [(0, 1), (1, 2), (2, 3), (3, 0), (4, 5), (5, 6), (6, 7), (7, 4), (0, 4), (1, 5), (2, 6), (3, 7)]

/-- `mesh.rs`, `get_voxel_data`: raw lattice read at flat index
`z*size*size + y*size + x`, `size = grid_size + 1`. -/
def get_voxel_data (voxels : List VoxelData) (pos : Nat × Nat × Nat) (grid_size : Nat) : VoxelData :=
  let size := grid_size + 1
  voxels.getD (pos.2.2 * size * size + pos.2.1 * size + pos.1) ⟨0, 0⟩

/-- `mesh.rs`, `get_voxel_density`. -/
def get_voxel_density (voxels : List VoxelData) (pos : Nat × Nat × Nat) (grid_size : Nat) : ℚ :=
  (get_voxel_data voxels pos grid_size).density

/-- `mesh.rs`, `get_voxel_color`. -/
def get_voxel_color (voxels : List VoxelData) (pos : Nat × Nat × Nat) (grid_size : Nat) : Nat :=
  (get_voxel_data voxels pos grid_size).color

/-- `mesh.rs`, `get_voxel_density_safe`: bounds-checked read, sentinel `1.0`
outside `[0, grid_size]` on any axis. -/
def get_voxel_density_safe (voxels : List VoxelData) (pos : Int × Int × Int) (grid_size : Nat) : ℚ :=
  let size : Int := (grid_size : Int) + 1
  if pos.1 < 0 ∨ pos.2.1 < 0 ∨ pos.2.2 < 0 ∨ size ≤ pos.1 ∨ size ≤ pos.2.1 ∨ size ≤ pos.2.2 then
    1
  else
    get_voxel_density voxels (pos.1.toNat, pos.2.1.toNat, pos.2.2.toNat) grid_size

/-- `mesh.rs`, `get_voxel_color_safe`: bounds-checked read, sentinel gray
`0x808080FF` outside `[0, grid_size]` on any axis. -/
def get_voxel_color_safe (voxels : List VoxelData) (pos : Int × Int × Int) (grid_size : Nat) : Nat :=
  let size : Int := (grid_size : Int) + 1
  if pos.1 < 0 ∨ pos.2.1 < 0 ∨ pos.2.2 < 0 ∨ size ≤ pos.1 ∨ size ≤ pos.2.1 ∨ size ≤ pos.2.2 then
    0x808080FF
  else
    get_voxel_color voxels (pos.1.toNat, pos.2.1.toNat, pos.2.2.toNat) grid_size

/-- The interpolation guard threshold `0.00001` of `mesh.rs`. -/
def EPSILON : ℚ := 1 / 100000

/-- `mesh.rs`, `interpolate_vertex` (isolevel 0). -/
def interpolate_vertex (p1 p2 : ℚ × ℚ × ℚ) (val1 val2 : ℚ) : ℚ × ℚ × ℚ :=
  if |0 - val1| < EPSILON then p1
  else if |0 - val2| < EPSILON then p2
  else if |val1 - val2| < EPSILON then p1
  else
    let mu := (0 - val1) / (val2 - val1)
    (p1.1 + mu * (p2.1 - p1.1), p1.2.1 + mu * (p2.2.1 - p1.2.1), p1.2.2 + mu * (p2.2.2 - p1.2.2))

/-- The `normalize` closure inside `mesh.rs`, `interpolate_normal`. -/
def fnormalize (sqrtF : ℚ → ℚ) (v : ℚ × ℚ × ℚ) : ℚ × ℚ × ℚ :=
  let len := sqrtF (v.1 * v.1 + v.2.1 * v.2.1 + v.2.2 * v.2.2)
  if 0 < len then (v.1 / len, v.2.1 / len, v.2.2 / len) else v

/-- `mesh.rs`, `interpolate_normal` (isolevel 0). -/
def interpolate_normal (sqrtF : ℚ → ℚ) (n1 n2 : ℚ × ℚ × ℚ) (val1 val2 : ℚ) : ℚ × ℚ × ℚ :=
  if |0 - val1| < EPSILON then fnormalize sqrtF n1
  else if |0 - val2| < EPSILON then fnormalize sqrtF n2
  else if |val1 - val2| < EPSILON then fnormalize sqrtF n1
  else
    let mu := (0 - val1) / (val2 - val1)
    fnormalize sqrtF
      (n1.1 + mu * (n2.1 - n1.1), n1.2.1 + mu * (n2.2.1 - n1.2.1), n1.2.2 + mu * (n2.2.2 - n1.2.2))

/-- `mesh.rs`, `calculate_gradient`: central differences over the six axis
neighbours, negated and normalized when the computed length exceeds
`0.0001`, else the fixed up-vector. -/
def calculate_gradient (sqrtF : ℚ → ℚ) (voxels : List VoxelData) (pos : Int × Int × Int)
    (grid_size : Nat) : ℚ × ℚ × ℚ :=
  let dx := get_voxel_density_safe voxels (pos.1 + 1, pos.2.1, pos.2.2) grid_size -
    get_voxel_density_safe voxels (pos.1 - 1, pos.2.1, pos.2.2) grid_size
  let dy := get_voxel_density_safe voxels (pos.1, pos.2.1 + 1, pos.2.2) grid_size -
    get_voxel_density_safe voxels (pos.1, pos.2.1 - 1, pos.2.2) grid_size
  let dz := get_voxel_density_safe voxels (pos.1, pos.2.1, pos.2.2 + 1) grid_size -
    get_voxel_density_safe voxels (pos.1, pos.2.1, pos.2.2 - 1) grid_size
  let length := sqrtF (dx * dx + dy * dy + dz * dz)
  if 1 / 10000 < length then (-dx / length, -dy / length, -dz / length) else (0, 1, 0)

/-- `mesh.rs`, struct `Command` (indirect-draw record). -/
structure Command where
  vertex_count : Nat
  instance_count : Nat
  first_vertex : Nat
  first_instance : Nat
deriving DecidableEq

/-- One emitted mesh vertex: position, normal, packed colour. -/
structure MVertex where
  position : ℚ × ℚ × ℚ
  normal : ℚ × ℚ × ℚ
  color : Nat
deriving DecidableEq

/-- `mesh.rs`, struct `Chunk`: the seven parallel output buffers. -/
structure Chunk where
  densities : List Nat
  vertex_counts : List Nat
  commands : List Command
  vertices : List ℚ
  normals : List ℚ
  material_colors : List Nat
  colors : List Nat
deriving DecidableEq

/-- The meshlet compression factor, `const COMPRESSION: u32 = 8`. -/
def COMPRESSION : Nat := 8

/-- Corner offset lookup `CUBE_VERTICES[i]`. -/
def cornerOffset (i : Nat) : Int × Int × Int := CUBE_VERTICES.getD i (0, 0, 0)

/-- Integer corner position `world_pos + CUBE_VERTICES[i]` (as built for the
accessor and gradient calls). -/
def cornerPos (wp : Int × Int × Int) (i : Nat) : Int × Int × Int :=
  (wp.1 + (cornerOffset i).1, wp.2.1 + (cornerOffset i).2.1, wp.2.2 + (cornerOffset i).2.2)

/-- Rational corner position `world_pos as f32 + CUBE_VERTICES[i]` (as built
for `interpolate_vertex`). -/
def cornerPosQ (wp : Int × Int × Int) (i : Nat) : ℚ × ℚ × ℚ :=
  ((wp.1 : ℚ) + ((cornerOffset i).1 : ℚ), (wp.2.1 : ℚ) + ((cornerOffset i).2.1 : ℚ),
    (wp.2.2 : ℚ) + ((cornerOffset i).2.2 : ℚ))

/-- Corner density `cube_values[i]` of the unit cube at `wp`. -/
def cube_value (voxels : List VoxelData) (grid_size : Nat) (wp : Int × Int × Int) (i : Nat) : ℚ :=
  get_voxel_density_safe voxels (cornerPos wp i) grid_size

/-- Corner colour `cube_colors[i]` of the unit cube at `wp`. -/
def cube_color (voxels : List VoxelData) (grid_size : Nat) (wp : Int × Int × Int) (i : Nat) : Nat :=
  get_voxel_color_safe voxels (cornerPos wp i) grid_size

/-- The 8-bit cube configuration: bit `i` set iff `cube_values[i] < 0`. -/
def cube_index (voxels : List VoxelData) (grid_size : Nat) (wp : Int × Int × Int) : Nat :=
  (List.range 8).foldl
    (fun acc i => if cube_value voxels grid_size wp i < 0 then acc ||| (1 <<< i) else acc) 0

/-- Per-edge data of one cube: interpolated position (chunk-local), normal
and hard-selected colour for edge `i`; zeros when bit `i` of `edges` is
clear (mirroring the zero-initialised `vertex_list` / `normal_list` /
`color_list` arrays). -/
def edge_data (sqrtF : ℚ → ℚ) (voxels : List VoxelData) (grid_size : Nat)
    (wp : Int × Int × Int) (edges : Nat) (i : Nat) : MVertex :=
  if edges &&& (1 <<< i) ≠ 0 then
    let v1 := (EDGE_VERTICES.getD i (0, 0)).1
    let v2 := (EDGE_VERTICES.getD i (0, 0)).2
    { position := interpolate_vertex (cornerPosQ wp v1) (cornerPosQ wp v2)
        (cube_value voxels grid_size wp v1) (cube_value voxels grid_size wp v2)
      normal := interpolate_normal sqrtF
        (calculate_gradient sqrtF voxels (cornerPos wp v1) grid_size)
        (calculate_gradient sqrtF voxels (cornerPos wp v2) grid_size)
        (cube_value voxels grid_size wp v1) (cube_value voxels grid_size wp v2)
      color := if cube_value voxels grid_size wp v1 < cube_value voxels grid_size wp v2 then
          cube_color voxels grid_size wp v1
        else
          cube_color voxels grid_size wp v2 }
  else
    { position := (0, 0, 0), normal := (0, 0, 0), color := 0 }

/-- World-space offset applied to a vertex position at emission time. -/
def emitVertex (cwp : ℚ × ℚ × ℚ) (v : MVertex) : MVertex :=
  { v with position := (v.position.1 + cwp.1, v.position.2.1 + cwp.2.1, v.position.2.2 + cwp.2.2) }

/-- The triangle-table walk of `mesh.rs` (`while tri_idx < 16`): reads flat
entries `cube_index*16 + tri_idx + {0,1,2}`, stops at a `-1` lead entry, and
keeps a triple only when all three entries are non-negative. -/
def triWalkAux (ci : Nat) (tri_idx : Nat) : List (Nat × Nat × Nat) :=
  if h : tri_idx < 16 then
    let e1 := TRIANGLE_TABLE_DATA.getD (ci * 16 + tri_idx) (-1)
    let e2 := TRIANGLE_TABLE_DATA.getD (ci * 16 + tri_idx + 1) (-1)
    let e3 := TRIANGLE_TABLE_DATA.getD (ci * 16 + tri_idx + 2) (-1)
    if e1 = -1 then []
    else
      (if 0 ≤ e1 ∧ 0 ≤ e2 ∧ 0 ≤ e3 then [(e1.toNat, e2.toNat, e3.toNat)] else []) ++
        triWalkAux ci (tri_idx + 3)
  else []
termination_by 16 - tri_idx

/-- Edge-index triples of the triangles emitted for configuration `ci`. -/
def triWalk (ci : Nat) : List (Nat × Nat × Nat) := triWalkAux ci 0

/-- Processing of one unit cube of the lattice: `none` for a trivial cube
(`cube_index ∈ {0, 255}`, the `continue` before `density += 1`), otherwise
`some` of the emitted world-space triangle list (empty when the edge mask is
zero, the `continue` after `density += 1`). -/
def processCube (sqrtF : ℚ → ℚ) (voxels : List VoxelData) (grid_size : Nat)
    (cwp : ℚ × ℚ × ℚ) (wp : Int × Int × Int) : Option (List (MVertex × MVertex × MVertex)) :=
  let ci := cube_index voxels grid_size wp
  if ci = 0 ∨ ci = 255 then none
  else
    let edges := EDGE_TABLE_DATA.getD ci 0
    if edges = 0 then some []
    else
      some ((triWalk ci).map (fun t =>
        (emitVertex cwp (edge_data sqrtF voxels grid_size wp edges t.1),
          emitVertex cwp (edge_data sqrtF voxels grid_size wp edges t.2.1),
          emitVertex cwp (edge_data sqrtF voxels grid_size wp edges t.2.2))))

/-- The `COMPRESSION³` cube positions of meshlet `g`, in source iteration
order (`z` outer, `y` middle, `x` inner). -/
def cubePositions (g : Nat × Nat × Nat) : List (Int × Int × Int) :=
  (List.range COMPRESSION).flatMap (fun cz =>
    (List.range COMPRESSION).flatMap (fun cy =>
      (List.range COMPRESSION).map (fun cx =>
        (((cx + g.1 * COMPRESSION : Nat) : Int), ((cy + g.2.1 * COMPRESSION : Nat) : Int),
          ((cz + g.2.2 * COMPRESSION : Nat) : Int)))))

/-- Meshlet group ids `(gx, gy, gz)` in source iteration order (`gz` outer,
`gy` middle, `gx` inner). -/
def groupIds (s_size : Nat) : List (Nat × Nat × Nat) :=
  (List.range s_size).flatMap (fun gz =>
    (List.range s_size).flatMap (fun gy =>
      (List.range s_size).map (fun gx => (gx, gy, gz))))

/-- All triangles of one meshlet, in emission order. -/
def meshletTriples (sqrtF : ℚ → ℚ) (voxels : List VoxelData) (grid_size : Nat)
    (cwp : ℚ × ℚ × ℚ) (g : Nat × Nat × Nat) : List (MVertex × MVertex × MVertex) :=
  (cubePositions g).flatMap (fun wp => (processCube sqrtF voxels grid_size cwp wp).getD [])

/-- The meshlet occupancy counter (`density` in the source): the number of
cubes for which `density += 1` runs, i.e. with non-trivial configuration. -/
def meshletDensity (sqrtF : ℚ → ℚ) (voxels : List VoxelData) (grid_size : Nat)
    (cwp : ℚ × ℚ × ℚ) (g : Nat × Nat × Nat) : Nat :=
  (cubePositions g).countP (fun wp => (processCube sqrtF voxels grid_size cwp wp).isSome)

/-- The meshlet-local vertex run (`local_positions` / `local_normals` /
`local_colors`): three vertices per triangle, in order. -/
def meshletVerts (sqrtF : ℚ → ℚ) (voxels : List VoxelData) (grid_size : Nat)
    (cwp : ℚ × ℚ × ℚ) (g : Nat × Nat × Nat) : List MVertex :=
  (meshletTriples sqrtF voxels grid_size cwp g).flatMap (fun t => [t.1, t.2.1, t.2.2])

/-- Flattening of one vertex position to the 4-float GPU layout `xyz1`. -/
def vert4 (v : MVertex) : List ℚ := [v.position.1, v.position.2.1, v.position.2.2, 1]

/-- Flattening of one vertex normal to the 4-float GPU layout `xyz0`. -/
def norm4 (v : MVertex) : List ℚ := [v.normal.1, v.normal.2.1, v.normal.2.2, 0]

/-- Appending one finished meshlet to the chunk-wide buffers: exactly the
post-group block of `generate_mesh` (`vertex_count`, `first_vertex =
all_vertices.len() / 4`, buffer extends, command record). -/
def appendMeshlet (st : Chunk) (loc : List MVertex) (den : Nat) : Chunk :=
  let vertex_count := loc.length
  let first_vertex := st.vertices.length / 4
  { densities := st.densities ++ [den]
    vertex_counts := st.vertex_counts ++ [vertex_count]
    commands := st.commands ++ [⟨vertex_count, 1, first_vertex, 0⟩]
    vertices := st.vertices ++ loc.flatMap vert4
    normals := st.normals ++ loc.flatMap norm4
    material_colors := st.material_colors ++ loc.map MVertex.color
    colors := st.colors ++ loc.map MVertex.color }

/-- The empty chunk (all seven buffers start as fresh vectors). -/
def emptyChunk : Chunk := ⟨[], [], [], [], [], [], []⟩

/-- Colour assignment of `generate_mesh` (`mesh.rs` lines 465-485): rainbow
from the `y` layer of the flat index for inside samples, gray `0xFF808080`
for outside samples.  `127.5` is `255/2`; the `clamp(0,255) as u32 & 0xFF`
channel is modelled by `ratChannel`. -/
def ratChannel (q : ℚ) : Nat :=
  (max 0 (min 255 q)).floor.toNat &&& 0xFF

/-- Rainbow-or-gray packed colour for the lattice sample at flat index
`idx` with the given density (`voxel_size = size + 1`). -/
def voxelColorOf (sinF : ℚ → ℚ) (voxel_size : Nat) (idx : Nat) (density : ℚ) : Nat :=
  if density < 0 then
    let y := (idx / voxel_size) % voxel_size
    let t : ℚ := ((y : ℚ) / (voxel_size : ℚ)) * 16
    let r := ratChannel (sinF t * (255 / 2) + 255 / 2)
    let g := ratChannel (sinF (t + 2) * (255 / 2) + 255 / 2)
    let b := ratChannel (sinF (t + 4) * (255 / 2) + 255 / 2)
    0xFF000000 ||| (b <<< 16) ||| (g <<< 8) ||| r
  else
    0xFF808080

/-- The voxel lattice built from the density data (the enumerate-loop of
`generate_mesh`). -/
def buildVoxels (sinF : ℚ → ℚ) (voxel_size : Nat) (density_data : List ℚ) : List VoxelData :=
  density_data.enum.map (fun p => { density := p.2, color := voxelColorOf sinF voxel_size p.1 p.2 })

/-- The voxel lattice `generate_mesh` builds from the density generator
(`let voxels = ...` with the colour loop). -/
def meshVoxels (noiseF : Int → Int → Int → Nat → List ℚ) (sinF : ℚ → ℚ)
    (x y z : Int) (size : Nat) : List VoxelData :=
  buildVoxels sinF (size + 1) (noiseF x y z size)

/-- `chunk_world_pos = [x*size, y*size, z*size]`, read back as `f32`. -/
def chunkWP (x y z : Int) (size : Nat) : ℚ × ℚ × ℚ :=
  (((x * (size : Int)) : ℚ), ((y * (size : Int)) : ℚ), ((z * (size : Int)) : ℚ))

/-- `mesh.rs`, `generate_mesh`, parametric in the density generator
`noiseF` (the out-of-src `only_noise_for_chunk`) and in the `f32`
primitives `sinF` and `sqrtF`. -/
def generate_mesh_core (noiseF : Int → Int → Int → Nat → List ℚ) (sinF sqrtF : ℚ → ℚ)
    (x y z : Int) (size : Nat) : Chunk :=
  let s_size := size / COMPRESSION
  let voxels := meshVoxels noiseF sinF x y z size
  let cwp := chunkWP x y z size
  (groupIds s_size).foldl
    (fun st g =>
      appendMeshlet st (meshletVerts sqrtF voxels size cwp g)
        (meshletDensity sqrtF voxels size cwp g))
    emptyChunk

/-- Modelled from the spec: `only_noise_for_chunk` (the Field Sampler plus
Voxel Grid Builder of spec sections 4.1-4.2) is imported by `mesh.rs` but
absent from the sources.  Per the spec it deterministically fills the
`(resolution+1)³` lattice in index order `z*size*size + y*size + x` with a
signed-distance-like density clamped to `[-1, 1]`, sampling at
`chunk_offset + local_pos` with `chunk_offset = (x, y, z) * resolution`;
the exact noise composition is a swappable policy, taken here as a plain
height field (terrain height 64). -/
def only_noise_for_chunk (x y z : Int) (size : Nat) : List ℚ :=
  let s := size + 1
  let offY : Int := y * size
  (List.range (s * s * s)).map (fun idx =>
    let ly := (idx / s) % s
    let wy : ℚ := (ly : ℚ) + (offY : ℚ)
    max (-1) (min 1 (wy - 64)))

/-- Modelled from the spec: stand-in for the host `f32::sin` (not part of
the sources); any pure function satisfies the determinism contract the
spec puts on the sampling pipeline. -/
def sin0 : ℚ → ℚ := fun _ => 0

/-- Modelled from the spec: stand-in for the host `f32::sqrt` (not part of
the sources); any pure function satisfies the determinism contract. -/
def sqrt0 : ℚ → ℚ := fun q => q

/-- `mesh.rs`, `generate_mesh`, with the concrete (spec-modelled) density
generator and `f32` primitives plugged in. -/
def generate_mesh (x y z : Int) (size : Nat) : Chunk :=
  generate_mesh_core only_noise_for_chunk sin0 sqrt0 x y z size

/-- Commands as a running prefix sum would record them: one command per
count, `first_vertex` advancing by the previous counts (used to state the
offset-monotonicity and conservation claims). -/
def buildCommands (first : Nat) : List Nat → List Command
  | [] => []
  | n :: ns => ⟨n, 1, first, 0⟩ :: buildCommands (first + n) ns

/-- Running prefix sums: entry `i` is the sum of the entries of `l` before
index `i` (the claim-side reading of `first_vertex`). -/
def runningSums (l : List Nat) : List Nat :=
  (List.range l.length).map (fun i => (l.take i).sum)

/-- One triangle-table entry against an edge mask: negative (sentinel)
entries are always fine, a non-negative edge index must have its bit set in
the mask. -/
def entryOk (mask : Nat) (e : Int) : Bool :=
  if e < 0 then true else mask &&& (1 <<< e.toNat) != 0

/-- One 16-entry triangle-table row against its edge mask; additionally the
last slot must hold the `-1` sentinel (so the walker never reads past the
row). -/
def rowOk (mask : Nat) (row : List Int) : Bool :=
  row.all (entryOk mask) && decide (row.getD 15 (-1) < 0)

/-- Full consistency scan of the two marching-cubes tables, one 16-entry
row per edge-table entry. -/
def tablesOk : List Nat → List Int → Bool
  | [], _ => true
  | mask :: ms, tri => rowOk mask (tri.take 16) && tablesOk ms (tri.drop 16)

/-- The central-difference gradient components (the `dx`, `dy`, `dz` lets of
`calculate_gradient`), named so the gradient claim can refer to them. -/
def central_difference (voxels : List VoxelData) (pos : Int × Int × Int) (grid_size : Nat) :
    ℚ × ℚ × ℚ :=
  (get_voxel_density_safe voxels (pos.1 + 1, pos.2.1, pos.2.2) grid_size -
      get_voxel_density_safe voxels (pos.1 - 1, pos.2.1, pos.2.2) grid_size,
    get_voxel_density_safe voxels (pos.1, pos.2.1 + 1, pos.2.2) grid_size -
      get_voxel_density_safe voxels (pos.1, pos.2.1 - 1, pos.2.2) grid_size,
    get_voxel_density_safe voxels (pos.1, pos.2.1, pos.2.2 + 1) grid_size -
      get_voxel_density_safe voxels (pos.1, pos.2.1, pos.2.2 - 1) grid_size)



lemma vert4_length (v : MVertex) : (vert4 v).length = 4 := rfl
lemma norm4_length (v : MVertex) : (norm4 v).length = 4 := rfl

lemma flatMap_vert4_length (l : List MVertex) : (l.flatMap vert4).length = 4 * l.length := by
  induction l with
  | nil => simp
  | cons a l ih => simp [List.flatMap_cons, ih, vert4]; ring

lemma flatMap_norm4_length (l : List MVertex) : (l.flatMap norm4).length = 4 * l.length := by
  induction l with
  | nil => simp
  | cons a l ih => simp [List.flatMap_cons, ih, norm4]; ring

/-- Fold characterization: running the per-meshlet append over a list of
groups extends each buffer by the concatenation of the per-group data and
records prefix-sum commands. -/
lemma foldl_appendMeshlet {α : Type} (f : α → List MVertex) (d : α → Nat) (gs : List α)
    (st : Chunk) (k : Nat) (hk : st.vertices.length = 4 * k) :
    gs.foldl (fun st g => appendMeshlet st (f g) (d g)) st =
      { densities := st.densities ++ gs.map d
        vertex_counts := st.vertex_counts ++ gs.map (fun g => (f g).length)
        commands := st.commands ++ buildCommands k (gs.map (fun g => (f g).length))
        vertices := st.vertices ++ gs.flatMap (fun g => (f g).flatMap vert4)
        normals := st.normals ++ gs.flatMap (fun g => (f g).flatMap norm4)
        material_colors := st.material_colors ++ gs.flatMap (fun g => (f g).map MVertex.color)
        colors := st.colors ++ gs.flatMap (fun g => (f g).map MVertex.color) } := by
  induction gs generalizing st k with
  | nil => simp [buildCommands]
  | cons g gs ih =>
    rw [List.foldl_cons]
    rw [ih (appendMeshlet st (f g) (d g)) (k + (f g).length)
      (by simp only [appendMeshlet, List.length_append, flatMap_vert4_length, hk]; ring)]
    have hfv : st.vertices.length / 4 = k := by rw [hk]; omega
    simp only [appendMeshlet, hfv, buildCommands, List.map_cons, List.flatMap_cons,
      List.append_assoc, List.cons_append, List.nil_append]


lemma buildCommands_map_vc (k : Nat) (ns : List Nat) :
    (buildCommands k ns).map Command.vertex_count = ns := by
  induction ns generalizing k with
  | nil => simp [buildCommands]
  | cons n ns ih => simp [buildCommands, ih]

lemma buildCommands_length (k : Nat) (ns : List Nat) :
    (buildCommands k ns).length = ns.length := by
  induction ns generalizing k with
  | nil => simp [buildCommands]
  | cons n ns ih => simp [buildCommands, ih]

lemma buildCommands_map_fv (k : Nat) (ns : List Nat) :
    (buildCommands k ns).map Command.first_vertex =
      (List.range ns.length).map (fun i => k + (ns.take i).sum) := by
  induction ns generalizing k with
  | nil => simp [buildCommands]
  | cons n ns ih =>
    simp [buildCommands, ih (k + n), List.range_succ_eq_map, List.map_map, Function.comp_def,
      List.take_succ_cons, Nat.add_assoc]

lemma groupIds_length (s : Nat) : (groupIds s).length = s * s * s := by
  simp [groupIds, List.length_flatMap, Function.comp_def]
  ring


/-- Full compositional characterization of `generate_mesh_core`. -/
lemma generate_mesh_core_eq (noiseF : Int → Int → Int → Nat → List ℚ) (sinF sqrtF : ℚ → ℚ)
    (x y z : Int) (size : Nat) :
    generate_mesh_core noiseF sinF sqrtF x y z size =
      { densities := (groupIds (size / COMPRESSION)).map
          (meshletDensity sqrtF (meshVoxels noiseF sinF x y z size) size (chunkWP x y z size))
        vertex_counts := (groupIds (size / COMPRESSION)).map
          (fun g => (meshletVerts sqrtF (meshVoxels noiseF sinF x y z size) size
            (chunkWP x y z size) g).length)
        commands := buildCommands 0 ((groupIds (size / COMPRESSION)).map
          (fun g => (meshletVerts sqrtF (meshVoxels noiseF sinF x y z size) size
            (chunkWP x y z size) g).length))
        vertices := (groupIds (size / COMPRESSION)).flatMap
          (fun g => (meshletVerts sqrtF (meshVoxels noiseF sinF x y z size) size
            (chunkWP x y z size) g).flatMap vert4)
        normals := (groupIds (size / COMPRESSION)).flatMap
          (fun g => (meshletVerts sqrtF (meshVoxels noiseF sinF x y z size) size
            (chunkWP x y z size) g).flatMap norm4)
        material_colors := (groupIds (size / COMPRESSION)).flatMap
          (fun g => (meshletVerts sqrtF (meshVoxels noiseF sinF x y z size) size
            (chunkWP x y z size) g).map MVertex.color)
        colors := (groupIds (size / COMPRESSION)).flatMap
          (fun g => (meshletVerts sqrtF (meshVoxels noiseF sinF x y z size) size
            (chunkWP x y z size) g).map MVertex.color) } := by
  unfold generate_mesh_core
  rw [foldl_appendMeshlet _ _ _ emptyChunk 0 rfl]
  rfl


lemma meshletVerts_length (sqrtF : ℚ → ℚ) (voxels : List VoxelData) (gs : Nat)
    (cwp : ℚ × ℚ × ℚ) (g : Nat × Nat × Nat) :
    (meshletVerts sqrtF voxels gs cwp g).length =
      3 * (meshletTriples sqrtF voxels gs cwp g).length := by
  unfold meshletVerts
  induction meshletTriples sqrtF voxels gs cwp g with
  | nil => simp
  | cons t l ih => simp [List.flatMap_cons, ih]; ring

lemma flatMap_flatMap_vert4_length {α : Type} (gs : List α) (f : α → List MVertex) :
    (gs.flatMap (fun g => (f g).flatMap vert4)).length =
      4 * (gs.map (fun g => (f g).length)).sum := by
  induction gs with
  | nil => simp
  | cons g gs ih =>
    rw [List.flatMap_cons, List.length_append, flatMap_vert4_length, ih, List.map_cons,
      List.sum_cons]
    ring

/-- C5: edge interpolation boundary — for every pair of endpoint positions
and every pair of equal densities (including both zero), `interpolate_vertex`
returns exactly the first endpoint: the three epsilon guards make every
equal-density input take a compare-and-return path, so no division is
performed and the result is the unchanged endpoint `p1`. -/
theorem interpolate_vertex_equal_vals (p1 p2 : ℚ × ℚ × ℚ) (v : ℚ) :
    interpolate_vertex p1 p2 v v = p1 := by
  unfold interpolate_vertex
  by_cases h : |0 - v| < EPSILON
  · rw [if_pos h]
  · rw [if_neg h, if_neg h, if_pos]
    rw [sub_self, abs_zero]
    unfold EPSILON
    norm_num

/-- C2: conservation — in every chunk produced by `generate_mesh` (for any
density generator and any `f32` primitives), each meshlet's
`Command.vertex_count` is 3 times the number of triangles that meshlet
emitted, and the sum of all `vertex_counts` times 4 is the length of the
flattened vertices buffer. -/
theorem mesh_conservation (noiseF : Int → Int → Int → Nat → List ℚ) (sinF sqrtF : ℚ → ℚ)
    (x y z : Int) (size : Nat) :
    ((generate_mesh_core noiseF sinF sqrtF x y z size).commands.map Command.vertex_count =
        (groupIds (size / COMPRESSION)).map (fun g =>
          3 * (meshletTriples sqrtF (meshVoxels noiseF sinF x y z size) size
            (chunkWP x y z size) g).length)) ∧
    4 * ((generate_mesh_core noiseF sinF sqrtF x y z size).vertex_counts.sum) =
      (generate_mesh_core noiseF sinF sqrtF x y z size).vertices.length := by
  rw [generate_mesh_core_eq]
  constructor
  · rw [buildCommands_map_vc]
    simp [meshletVerts_length]
  · rw [flatMap_flatMap_vert4_length]


/-- C3: offset monotonicity — in every chunk produced by `generate_mesh`,
the `first_vertex` fields of the commands, in the fixed meshlet iteration
order, are exactly the running prefix sums of the `vertex_counts` (hence
non-decreasing, with no gaps and no overlaps). -/
theorem mesh_offsets (noiseF : Int → Int → Int → Nat → List ℚ) (sinF sqrtF : ℚ → ℚ)
    (x y z : Int) (size : Nat) :
    (generate_mesh_core noiseF sinF sqrtF x y z size).commands.map Command.first_vertex =
      runningSums (generate_mesh_core noiseF sinF sqrtF x y z size).vertex_counts := by
  rw [generate_mesh_core_eq]
  show (buildCommands 0 _).map Command.first_vertex = runningSums _
  rw [buildCommands_map_fv]
  unfold runningSums
  simp

/-- C7 (amended): `generate_mesh` performs no validation and reports no
error: for every `size` it totally returns a Chunk whose meshlet group
count is `(size / 8) ^ 3`, the integer division silently truncating when
8 does not divide `size`. -/
theorem mesh_group_count (noiseF : Int → Int → Int → Nat → List ℚ) (sinF sqrtF : ℚ → ℚ)
    (x y z : Int) (size : Nat) :
    (generate_mesh_core noiseF sinF sqrtF x y z size).commands.length = (size / 8) ^ 3 := by
  rw [generate_mesh_core_eq]
  show (buildCommands 0 _).length = _
  rw [buildCommands_length, List.length_map, groupIds_length]
  show (size / COMPRESSION) * _ * _ = _
  unfold COMPRESSION
  ring

/-- C7 (counterexample): at `size = 4` — not a positive multiple of the
compression factor 8 — `generate_mesh` does not report any error: it
silently returns an ordinary (empty) Chunk with `4 / 8 = 0` meshlet
groups, refuting the claim that such inputs are explicitly rejected. -/
theorem mesh_no_rejection_at_4 :
    generate_mesh 0 0 0 4 = emptyChunk := by
  rfl


/-- C8: chunk buffer layout — in every chunk produced by `generate_mesh`,
the vertices buffer is a flattening of 4-float groups whose fourth
component is exactly 1.0, the normals buffer a flattening of 4-float
groups whose fourth component is exactly 0.0, and the lit colors buffer
equals the material colors buffer element for element at construction. -/
theorem mesh_buffer_layout (noiseF : Int → Int → Int → Nat → List ℚ) (sinF sqrtF : ℚ → ℚ)
    (x y z : Int) (size : Nat) :
    (∃ ps : List (ℚ × ℚ × ℚ),
        (generate_mesh_core noiseF sinF sqrtF x y z size).vertices =
          ps.flatMap (fun p => [p.1, p.2.1, p.2.2, 1])) ∧
    (∃ ns : List (ℚ × ℚ × ℚ),
        (generate_mesh_core noiseF sinF sqrtF x y z size).normals =
          ns.flatMap (fun p => [p.1, p.2.1, p.2.2, 0])) ∧
    (generate_mesh_core noiseF sinF sqrtF x y z size).colors =
      (generate_mesh_core noiseF sinF sqrtF x y z size).material_colors := by
  rw [generate_mesh_core_eq]
  refine ⟨⟨((groupIds (size / COMPRESSION)).flatMap
      (meshletVerts sqrtF (meshVoxels noiseF sinF x y z size) size (chunkWP x y z size))).map
        MVertex.position, ?_⟩,
    ⟨((groupIds (size / COMPRESSION)).flatMap
      (meshletVerts sqrtF (meshVoxels noiseF sinF x y z size) size (chunkWP x y z size))).map
        MVertex.normal, ?_⟩, rfl⟩
  · dsimp only
    rw [List.flatMap_map, ← List.flatMap_assoc]
    rfl
  · dsimp only
    rw [List.flatMap_map, ← List.flatMap_assoc]
    rfl

/-- C1: determinism — two calls of `generate_mesh` with identical
`(x, y, z, size)` yield element-for-element identical vertices, normals,
material_colors, colors, vertex_counts, densities and commands buffers.
In this pure embedding (the out-of-src `only_noise_for_chunk` is modelled
per the spec as a pure sampler, and the mesher itself keeps no state
between calls) the two results are one and the same value. -/
theorem mesh_deterministic (x y z : Int) (size : Nat) :
    (generate_mesh x y z size).vertices = (generate_mesh x y z size).vertices ∧
    (generate_mesh x y z size).normals = (generate_mesh x y z size).normals ∧
    (generate_mesh x y z size).material_colors = (generate_mesh x y z size).material_colors ∧
    (generate_mesh x y z size).colors = (generate_mesh x y z size).colors ∧
    (generate_mesh x y z size).vertex_counts = (generate_mesh x y z size).vertex_counts ∧
    (generate_mesh x y z size).densities = (generate_mesh x y z size).densities ∧
    (generate_mesh x y z size).commands = (generate_mesh x y z size).commands :=
  ⟨rfl, rfl, rfl, rfl, rfl, rfl, rfl⟩


-- C6 machinery
lemma edge_table_nonzero_scan : (List.range 256).all
    (fun c => (c == 0) || (c == 255) || !(EDGE_TABLE_DATA.getD c 0 == 0)) = true := by rfl

lemma edge_table_nonzero {c : Nat} (hc : c < 256) (h0 : c ≠ 0) (h255 : c ≠ 255) :
    EDGE_TABLE_DATA.getD c 0 ≠ 0 := by
  have := List.all_eq_true.mp edge_table_nonzero_scan c (List.mem_range.mpr hc)
  simpa [h0, h255] using this

lemma foldl_bits_lt (p : Nat → Prop) [DecidablePred p] (l : List Nat) (hl : ∀ i ∈ l, i < 8) :
    ∀ acc, acc < 256 →
      (l.foldl (fun acc i => if p i then acc ||| (1 <<< i) else acc) acc) < 256 := by
  induction l with
  | nil => intro acc h; simpa using h
  | cons i l ih =>
    intro acc hacc
    rw [List.foldl_cons]
    refine ih (fun j hj => hl j (List.mem_cons_of_mem _ hj)) _ ?_
    by_cases hp : p i
    · rw [if_pos hp]
      have hi8 : i < 8 := hl i (List.mem_cons_self i l)
      have hi : (1 <<< i) < 256 := by
        rw [Nat.one_shiftLeft]
        have h7 : 2 ^ i ≤ 2 ^ 7 := Nat.pow_le_pow_right (by norm_num) (by omega)
        omega
      have h256 : (256 : Nat) = 2 ^ 8 := by norm_num
      rw [h256] at hacc hi ⊢
      exact Nat.or_lt_two_pow hacc hi
    · rw [if_neg hp]; exact hacc

lemma cube_index_lt (voxels : List VoxelData) (gs : Nat) (wp : Int × Int × Int) :
    cube_index voxels gs wp < 256 := by
  unfold cube_index
  exact foldl_bits_lt _ (List.range 8) (fun i hi => List.mem_range.mp hi) 0 (by norm_num)

lemma processCube_isSome (sqrtF : ℚ → ℚ) (voxels : List VoxelData) (gs : Nat)
    (cwp : ℚ × ℚ × ℚ) (wp : Int × Int × Int) :
    (processCube sqrtF voxels gs cwp wp).isSome =
      decide (cube_index voxels gs wp ≠ 0 ∧ cube_index voxels gs wp ≠ 255) := by
  unfold processCube
  by_cases h : cube_index voxels gs wp = 0 ∨ cube_index voxels gs wp = 255
  · rw [if_pos h]
    simp [h]
    tauto
  · rw [if_neg h]
    push_neg at h
    have hd : (decide (cube_index voxels gs wp ≠ 0 ∧ cube_index voxels gs wp ≠ 255)) = true :=
      decide_eq_true h
    rw [hd]
    dsimp only
    by_cases he : EDGE_TABLE_DATA.getD (cube_index voxels gs wp) 0 = 0
    · rw [if_pos he]
      rfl
    · rw [if_neg he]
      rfl

/-- C6: occupancy counter — in every chunk produced by `generate_mesh`,
each meshlet's entry of the `densities` array equals the number of unit
cubes in that meshlet whose `cube_index` is neither 0 nor 255 and whose
edge-table entry is non-zero (the code counts every non-trivial
configuration before the edge-mask test, but the scan `edge_table_nonzero`
shows the mask is non-zero for every configuration in 1..254, so the two
counts agree). -/
theorem mesh_occupancy (noiseF : Int → Int → Int → Nat → List ℚ) (sinF sqrtF : ℚ → ℚ)
    (x y z : Int) (size : Nat) :
    (generate_mesh_core noiseF sinF sqrtF x y z size).densities =
      (groupIds (size / COMPRESSION)).map (fun g =>
        (cubePositions g).countP (fun wp =>
          decide (cube_index (meshVoxels noiseF sinF x y z size) size wp ≠ 0 ∧
            cube_index (meshVoxels noiseF sinF x y z size) size wp ≠ 255 ∧
            EDGE_TABLE_DATA.getD (cube_index (meshVoxels noiseF sinF x y z size) size wp) 0 ≠ 0))) := by
  rw [generate_mesh_core_eq]
  dsimp only
  refine List.map_congr_left (fun g hg => ?_)
  unfold meshletDensity
  refine List.countP_congr (fun wp hwp => ?_)
  rw [processCube_isSome]
  constructor
  · intro h
    have h2 := of_decide_eq_true h
    refine decide_eq_true ⟨h2.1, h2.2, edge_table_nonzero (cube_index_lt _ _ _) h2.1 h2.2⟩
  · intro h
    have h2 := of_decide_eq_true h
    exact decide_eq_true ⟨h2.1, h2.2.1⟩


-- C10 machinery: alpha byte of constructed voxel colours

lemma or_high24 (x : Nat) (hx : x < 2 ^ 24) : ((0xFF000000 : Nat) ||| x) >>> 24 = 255 := by
  refine Nat.eq_of_testBit_eq fun i => ?_
  rw [Nat.testBit_shiftRight, Nat.testBit_or]
  have hxb : x.testBit (24 + i) = false :=
    Nat.testBit_lt_two_pow (lt_of_lt_of_le hx (Nat.pow_le_pow_right (by norm_num) (by omega)))
  rw [hxb, Bool.or_false]
  have h255 : (0xFF000000 : Nat) = 255 <<< 24 := by norm_num [Nat.shiftLeft_eq]
  rw [h255, Nat.testBit_shiftLeft]
  simp

lemma ratChannel_lt (q : ℚ) : ratChannel q < 2 ^ 8 := by
  unfold ratChannel
  have := Nat.and_lt_two_pow ((max 0 (min 255 q)).floor.toNat) (y := 0xFF) (n := 8) (by norm_num)
  exact this

lemma voxelColorOf_alpha (sinF : ℚ → ℚ) (vs idx : Nat) (d : ℚ) :
    voxelColorOf sinF vs idx d >>> 24 = 255 := by
  unfold voxelColorOf
  by_cases h : d < 0
  · rw [if_pos h]
    dsimp only
    rw [Nat.or_assoc, Nat.or_assoc]
    apply or_high24
    have hb := ratChannel_lt (sinF (((((idx / vs) % vs : Nat) : ℚ) / (vs : ℚ) * 16) + 4) * (255 / 2) + 255 / 2)
    have hg := ratChannel_lt (sinF (((((idx / vs) % vs : Nat) : ℚ) / (vs : ℚ) * 16) + 2) * (255 / 2) + 255 / 2)
    have hr := ratChannel_lt (sinF ((((idx / vs) % vs : Nat) : ℚ) / (vs : ℚ) * 16) * (255 / 2) + 255 / 2)
    have h1 : (ratChannel (sinF (((((idx / vs) % vs : Nat) : ℚ) / (vs : ℚ) * 16) + 4) * (255 / 2) + 255 / 2)) <<< 16 < 2 ^ 24 := by
      rw [Nat.shiftLeft_eq]
      have : (2 : Nat) ^ 24 = 2 ^ 8 * 2 ^ 16 := by norm_num
      rw [this]
      exact (Nat.mul_lt_mul_right (by norm_num)).mpr hb
    have h2 : (ratChannel (sinF (((((idx / vs) % vs : Nat) : ℚ) / (vs : ℚ) * 16) + 2) * (255 / 2) + 255 / 2)) <<< 8 < 2 ^ 24 := by
      rw [Nat.shiftLeft_eq]
      have h16 : (ratChannel (sinF (((((idx / vs) % vs : Nat) : ℚ) / (vs : ℚ) * 16) + 2) * (255 / 2) + 255 / 2)) * 2 ^ 8 < 2 ^ 16 := by
        have : (2 : Nat) ^ 16 = 2 ^ 8 * 2 ^ 8 := by norm_num
        rw [this]
        exact (Nat.mul_lt_mul_right (by norm_num)).mpr hg
      omega
    have h3 : ratChannel (sinF ((((idx / vs) % vs : Nat) : ℚ) / (vs : ℚ) * 16) * (255 / 2) + 255 / 2) < 2 ^ 24 := by
      have : (2 : Nat) ^ 8 ≤ 2 ^ 24 := by norm_num
      omega
    exact Nat.or_lt_two_pow h1 (Nat.or_lt_two_pow h2 h3)
  · rw [if_neg h]
    rw [Nat.shiftRight_eq_div_pow]


lemma buildVoxels_alpha (sinF : ℚ → ℚ) (vs : Nat) (dd : List ℚ) :
    ∀ v ∈ buildVoxels sinF vs dd, v.color >>> 24 = 255 := by
  intro v hv
  unfold buildVoxels at hv
  obtain ⟨p, _, hp⟩ := List.mem_map.mp hv
  rw [← hp]
  exact voxelColorOf_alpha sinF vs p.1 p.2

-- in-bounds safe colour read returns a lattice element
lemma index3_lt (s xx yy zz : Nat) (hx : xx < s) (hy : yy < s) (hz : zz < s) :
    zz * s * s + yy * s + xx < s * s * s := by
  have h1 : yy * s + xx < s * s := by
    have : yy * s + xx < (yy + 1) * s := by
      rw [Nat.add_mul, Nat.one_mul]
      omega
    have h2 : (yy + 1) * s ≤ s * s := Nat.mul_le_mul_right s hy
    omega
  have h3 : zz * s * s + (yy * s + xx) < (zz + 1) * (s * s) := by
    have := Nat.mul_le_mul_right (s * s) (Nat.succ_le_of_lt hz)
    rw [Nat.add_mul, Nat.one_mul, Nat.mul_assoc]
    omega
  have h4 : (zz + 1) * (s * s) ≤ s * (s * s) := Nat.mul_le_mul_right (s * s) (Nat.succ_le_of_lt hz)
  have h5 : s * (s * s) = s * s * s := by ring
  omega

lemma get_voxel_color_safe_mem (voxels : List VoxelData) (pos : Int × Int × Int) (gs : Nat)
    (hlen : voxels.length = (gs + 1) * (gs + 1) * (gs + 1))
    (h0 : 0 ≤ pos.1) (h1 : pos.1 ≤ gs) (h2 : 0 ≤ pos.2.1) (h3 : pos.2.1 ≤ gs)
    (h4 : 0 ≤ pos.2.2) (h5 : pos.2.2 ≤ gs) :
    ∃ v ∈ voxels, get_voxel_color_safe voxels pos gs = v.color := by
  obtain ⟨px, py, pz⟩ := pos
  dsimp only at h0 h1 h2 h3 h4 h5 ⊢
  unfold get_voxel_color_safe
  rw [if_neg (by dsimp only; omega)]
  unfold get_voxel_color get_voxel_data
  dsimp only
  set idx := pz.toNat * (gs + 1) * (gs + 1) + py.toNat * (gs + 1) + px.toNat with hidx
  have hlt : idx < voxels.length := by
    rw [hlen]
    exact index3_lt (gs + 1) px.toNat py.toNat pz.toNat (by omega) (by omega) (by omega)
  refine ⟨voxels[idx], List.getElem_mem hlt, ?_⟩
  rw [List.getD_eq_getElem?_getD, List.getElem?_eq_getElem hlt]
  rfl


-- table consistency: glue from the single-pass scan to per-entry facts
lemma tables_ok_scan : tablesOk EDGE_TABLE_DATA TRIANGLE_TABLE_DATA = true := by rfl

lemma edge_table_len : EDGE_TABLE_DATA.length = 256 := by rfl

lemma tablesOk_row (ms : List Nat) (tri : List Int) (h : tablesOk ms tri = true) :
    ∀ ci, ci < ms.length → rowOk (ms.getD ci 0) ((tri.drop (16 * ci)).take 16) = true := by
  induction ms generalizing tri with
  | nil => intro ci hci; simp at hci
  | cons m ms ih =>
    intro ci hci
    rw [tablesOk] at h
    rw [Bool.and_eq_true] at h
    match ci with
    | 0 => simpa using h.1
    | ci + 1 =>
      have := ih (tri.drop 16) h.2 ci (by simpa using hci)
      rw [List.drop_drop] at this
      have harith : 16 + 16 * ci = 16 * (ci + 1) := by ring
      rw [harith] at this
      simpa using this

lemma row_getD (tri : List Int) (ci k : Nat) (hk : k < 16) :
    ((tri.drop (16 * ci)).take 16).getD k (-1) = tri.getD (16 * ci + k) (-1) := by
  rw [List.getD_eq_getElem?_getD, List.getD_eq_getElem?_getD, List.getElem?_take, if_pos hk,
    List.getElem?_drop]

lemma entryOk_getD (mask : Nat) (row : List Int) (hall : row.all (entryOk mask) = true) (k : Nat) :
    entryOk mask (row.getD k (-1)) = true := by
  by_cases hk : k < row.length
  · refine List.all_eq_true.mp hall _ ?_
    rw [List.getD_eq_getElem?_getD, List.getElem?_eq_getElem hk]
    exact List.getElem_mem hk
  · rw [List.getD_eq_getElem?_getD, List.getElem?_eq_none (by omega)]
    rfl

lemma triangle_entry_ok {ci : Nat} (hci : ci < 256) {k : Nat} (hk : k < 16) :
    entryOk (EDGE_TABLE_DATA.getD ci 0) (TRIANGLE_TABLE_DATA.getD (ci * 16 + k) (-1)) = true := by
  have hr := tablesOk_row EDGE_TABLE_DATA TRIANGLE_TABLE_DATA tables_ok_scan ci
    (by rw [edge_table_len]; exact hci)
  rw [rowOk, Bool.and_eq_true] at hr
  have := entryOk_getD _ _ hr.1 k
  rw [row_getD _ _ _ hk] at this
  have harith : 16 * ci + k = ci * 16 + k := by ring
  rw [harith] at this
  exact this

lemma triangle_entry15_neg {ci : Nat} (hci : ci < 256) :
    TRIANGLE_TABLE_DATA.getD (ci * 16 + 15) (-1) < 0 := by
  have hr := tablesOk_row EDGE_TABLE_DATA TRIANGLE_TABLE_DATA tables_ok_scan ci
    (by rw [edge_table_len]; exact hci)
  rw [rowOk, Bool.and_eq_true] at hr
  have := of_decide_eq_true hr.2
  rw [row_getD _ _ _ (by norm_num)] at this
  have harith : 16 * ci + 15 = ci * 16 + 15 := by ring
  rw [harith] at this
  exact this


lemma triWalkAux_bits {ci : Nat} (hci : ci < 256) :
    ∀ fuel tri_idx, tri_idx % 3 = 0 → 16 - tri_idx ≤ fuel →
      ∀ t ∈ triWalkAux ci tri_idx,
        (EDGE_TABLE_DATA.getD ci 0) &&& (1 <<< t.1) ≠ 0 ∧
        (EDGE_TABLE_DATA.getD ci 0) &&& (1 <<< t.2.1) ≠ 0 ∧
        (EDGE_TABLE_DATA.getD ci 0) &&& (1 <<< t.2.2) ≠ 0 := by
  intro fuel
  induction fuel with
  | zero =>
    intro tri_idx h3 hf t ht
    rw [triWalkAux.eq_def, dif_neg (by omega)] at ht
    simp at ht
  | succ fuel ih =>
    intro tri_idx h3 hf t ht
    by_cases h16 : tri_idx < 16
    · rw [triWalkAux.eq_def, dif_pos h16] at ht
      dsimp only at ht
      by_cases he1 : TRIANGLE_TABLE_DATA.getD (ci * 16 + tri_idx) (-1) = -1
      · rw [if_pos he1] at ht
        simp at ht
      · rw [if_neg he1] at ht
        rcases List.mem_append.mp ht with hl | hr
        · -- head triple (if kept)
          by_cases hk : 0 ≤ TRIANGLE_TABLE_DATA.getD (ci * 16 + tri_idx) (-1) ∧
              0 ≤ TRIANGLE_TABLE_DATA.getD (ci * 16 + tri_idx + 1) (-1) ∧
              0 ≤ TRIANGLE_TABLE_DATA.getD (ci * 16 + tri_idx + 2) (-1)
          · rw [if_pos hk] at hl
            have ht15 : tri_idx ≠ 15 := by
              intro h15
              rw [h15] at hk
              have := triangle_entry15_neg hci
              omega
            have hlt : tri_idx + 2 < 16 := by omega
            have hne : t = ((TRIANGLE_TABLE_DATA.getD (ci * 16 + tri_idx) (-1)).toNat,
                (TRIANGLE_TABLE_DATA.getD (ci * 16 + tri_idx + 1) (-1)).toNat,
                (TRIANGLE_TABLE_DATA.getD (ci * 16 + tri_idx + 2) (-1)).toNat) := by
              simpa using hl
            subst hne
            refine ⟨?_, ?_, ?_⟩
            · have h := triangle_entry_ok hci (k := tri_idx) (by omega)
              rw [entryOk, if_neg (by omega)] at h
              simpa using h
            · have h := triangle_entry_ok hci (k := tri_idx + 1) (by omega)
              rw [show ci * 16 + (tri_idx + 1) = ci * 16 + tri_idx + 1 by ring] at h
              rw [entryOk, if_neg (by omega)] at h
              simpa using h
            · have h := triangle_entry_ok hci (k := tri_idx + 2) (by omega)
              rw [show ci * 16 + (tri_idx + 2) = ci * 16 + tri_idx + 2 by ring] at h
              rw [entryOk, if_neg (by omega)] at h
              simpa using h
          · rw [if_neg hk] at hl
            simp at hl
        · exact ih (tri_idx + 3) (by omega) (by omega) t hr
    · rw [triWalkAux.eq_def, dif_neg h16] at ht
      simp at ht

lemma triWalk_bits {ci : Nat} (hci : ci < 256) :
    ∀ t ∈ triWalk ci,
      (EDGE_TABLE_DATA.getD ci 0) &&& (1 <<< t.1) ≠ 0 ∧
      (EDGE_TABLE_DATA.getD ci 0) &&& (1 <<< t.2.1) ≠ 0 ∧
      (EDGE_TABLE_DATA.getD ci 0) &&& (1 <<< t.2.2) ≠ 0 :=
  triWalkAux_bits hci 16 0 (by norm_num) (by norm_num)


lemma cornerOffset_bounds (j : Nat) :
    0 ≤ (cornerOffset j).1 ∧ (cornerOffset j).1 ≤ 1 ∧
    0 ≤ (cornerOffset j).2.1 ∧ (cornerOffset j).2.1 ≤ 1 ∧
    0 ≤ (cornerOffset j).2.2 ∧ (cornerOffset j).2.2 ≤ 1 := by
  unfold cornerOffset
  match j with
  | 0 => decide
  | 1 => decide
  | 2 => decide
  | 3 => decide
  | 4 => decide
  | 5 => decide
  | 6 => decide
  | 7 => decide
  | j + 8 =>
    have hd : CUBE_VERTICES.getD (j + 8) (0, 0, 0) = (0, 0, 0) := by
      rw [List.getD_eq_getElem?_getD,
        List.getElem?_eq_none (by rw [show CUBE_VERTICES.length = 8 from rfl]; omega)]
      rfl
    rw [hd]
    decide

lemma emitVertex_color (cwp : ℚ × ℚ × ℚ) (v : MVertex) : (emitVertex cwp v).color = v.color := rfl

lemma edge_data_color_mem (sqrtF : ℚ → ℚ) (voxels : List VoxelData) (gs : Nat)
    (wp : Int × Int × Int) (edges : Nat) (i : Nat)
    (hlen : voxels.length = (gs + 1) * (gs + 1) * (gs + 1))
    (hwp : 0 ≤ wp.1 ∧ wp.1 + 1 ≤ (gs : Int) ∧ 0 ≤ wp.2.1 ∧ wp.2.1 + 1 ≤ (gs : Int) ∧
      0 ≤ wp.2.2 ∧ wp.2.2 + 1 ≤ (gs : Int))
    (hbit : edges &&& (1 <<< i) ≠ 0) :
    ∃ w ∈ voxels, (edge_data sqrtF voxels gs wp edges i).color = w.color := by
  unfold edge_data
  rw [if_pos hbit]
  dsimp only
  have hmem : ∀ j : Nat, ∃ w ∈ voxels,
      cube_color voxels gs wp j = w.color := by
    intro j
    unfold cube_color
    have hb := cornerOffset_bounds j
    refine get_voxel_color_safe_mem voxels (cornerPos wp j) gs hlen ?_ ?_ ?_ ?_ ?_ ?_ <;>
      (unfold cornerPos; dsimp only; omega)
  by_cases hc : cube_value voxels gs wp (EDGE_VERTICES.getD i (0, 0)).1 <
      cube_value voxels gs wp (EDGE_VERTICES.getD i (0, 0)).2
  · rw [if_pos hc]
    exact hmem _
  · rw [if_neg hc]
    exact hmem _

lemma groupIds_mem (s : Nat) (g : Nat × Nat × Nat) (hg : g ∈ groupIds s) :
    g.1 < s ∧ g.2.1 < s ∧ g.2.2 < s := by
  unfold groupIds at hg
  obtain ⟨gz, hgz, hg2⟩ := List.mem_flatMap.mp hg
  obtain ⟨gy, hgy, hg3⟩ := List.mem_flatMap.mp hg2
  obtain ⟨gx, hgx, hg4⟩ := List.mem_map.mp hg3
  rw [← hg4]
  exact ⟨List.mem_range.mp hgx, List.mem_range.mp hgy, List.mem_range.mp hgz⟩

lemma cubePositions_mem (s : Nat) (g : Nat × Nat × Nat) (hg : g ∈ groupIds s)
    (wp : Int × Int × Int) (hwp : wp ∈ cubePositions g) :
    0 ≤ wp.1 ∧ wp.1 + 1 ≤ ((8 * s : Nat) : Int) ∧ 0 ≤ wp.2.1 ∧
      wp.2.1 + 1 ≤ ((8 * s : Nat) : Int) ∧ 0 ≤ wp.2.2 ∧ wp.2.2 + 1 ≤ ((8 * s : Nat) : Int) := by
  have hgb := groupIds_mem s g hg
  unfold cubePositions COMPRESSION at hwp
  obtain ⟨cz, hcz, hw2⟩ := List.mem_flatMap.mp hwp
  obtain ⟨cy, hcy, hw3⟩ := List.mem_flatMap.mp hw2
  obtain ⟨cx, hcx, hw4⟩ := List.mem_map.mp hw3
  rw [← hw4]
  have h1 := List.mem_range.mp hcx
  have h2 := List.mem_range.mp hcy
  have h3 := List.mem_range.mp hcz
  dsimp only
  refine ⟨by positivity, ?_, by positivity, ?_, by positivity, ?_⟩ <;>
    (push_cast; omega)


lemma meshletVerts_color_mem (sqrtF : ℚ → ℚ) (voxels : List VoxelData) (gs : Nat)
    (cwp : ℚ × ℚ × ℚ) (s : Nat) (g : Nat × Nat × Nat) (hg : g ∈ groupIds s)
    (h8 : 8 * s ≤ gs) (hlen : voxels.length = (gs + 1) * (gs + 1) * (gs + 1)) :
    ∀ v ∈ meshletVerts sqrtF voxels gs cwp g, ∃ w ∈ voxels, v.color = w.color := by
  intro v hv
  unfold meshletVerts at hv
  obtain ⟨t, ht, hvt⟩ := List.mem_flatMap.mp hv
  unfold meshletTriples at ht
  obtain ⟨wp, hwp, htp⟩ := List.mem_flatMap.mp ht
  have hwpb := cubePositions_mem s g hg wp hwp
  have hwb : 0 ≤ wp.1 ∧ wp.1 + 1 ≤ (gs : Int) ∧ 0 ≤ wp.2.1 ∧ wp.2.1 + 1 ≤ (gs : Int) ∧
      0 ≤ wp.2.2 ∧ wp.2.2 + 1 ≤ (gs : Int) := by
    have hcast : ((8 * s : Nat) : Int) ≤ (gs : Int) := by exact_mod_cast h8
    omega
  -- analyse processCube
  unfold processCube at htp
  by_cases hskip : cube_index voxels gs wp = 0 ∨ cube_index voxels gs wp = 255
  · rw [if_pos hskip] at htp
    simp at htp
  · rw [if_neg hskip] at htp
    dsimp only at htp
    by_cases hedges : EDGE_TABLE_DATA.getD (cube_index voxels gs wp) 0 = 0
    · rw [if_pos hedges] at htp
      simp at htp
    · rw [if_neg hedges] at htp
      rw [Option.getD_some] at htp
      obtain ⟨e, he, hte⟩ := List.mem_map.mp htp
      have hbits := triWalk_bits (cube_index_lt voxels gs wp) e he
      rw [← hte] at hvt
      have hvc : v.color = (edge_data sqrtF voxels gs wp
            (EDGE_TABLE_DATA.getD (cube_index voxels gs wp) 0) e.1).color ∨
          v.color = (edge_data sqrtF voxels gs wp
            (EDGE_TABLE_DATA.getD (cube_index voxels gs wp) 0) e.2.1).color ∨
          v.color = (edge_data sqrtF voxels gs wp
            (EDGE_TABLE_DATA.getD (cube_index voxels gs wp) 0) e.2.2).color := by
        simp only [List.mem_cons, List.not_mem_nil, or_false] at hvt
        rcases hvt with h | h | h
        · exact Or.inl (by rw [h]; rfl)
        · exact Or.inr (Or.inl (by rw [h]; rfl))
        · exact Or.inr (Or.inr (by rw [h]; rfl))
      rcases hvc with h | h | h
      · obtain ⟨w, hw, hwc⟩ := edge_data_color_mem sqrtF voxels gs wp _ e.1 hlen hwb hbits.1
        exact ⟨w, hw, by rw [h, hwc]⟩
      · obtain ⟨w, hw, hwc⟩ := edge_data_color_mem sqrtF voxels gs wp _ e.2.1 hlen hwb hbits.2.1
        exact ⟨w, hw, by rw [h, hwc]⟩
      · obtain ⟨w, hw, hwc⟩ := edge_data_color_mem sqrtF voxels gs wp _ e.2.2 hlen hwb hbits.2.2
        exact ⟨w, hw, by rw [h, hwc]⟩


lemma buildVoxels_length (sinF : ℚ → ℚ) (vs : Nat) (dd : List ℚ) :
    (buildVoxels sinF vs dd).length = dd.length := by
  unfold buildVoxels
  rw [List.length_map, List.enum_length]

/-- C10: opaque colors — for every density generator output of the correct
lattice size `(size+1)³`, every element of the produced chunk's
material_colors and colors buffers has its high (alpha) byte equal to
0xFF: corner colour sampling only ever reads in-bounds lattice positions
(whose colours are constructed with alpha 0xFF), and the out-of-bounds
sentinel `0x808080FF` is unreachable on the colour path. -/
theorem mesh_opaque_colors (noiseF : Int → Int → Int → Nat → List ℚ) (sinF sqrtF : ℚ → ℚ)
    (x y z : Int) (size : Nat)
    (hlen : (noiseF x y z size).length = (size + 1) * (size + 1) * (size + 1)) :
    ((generate_mesh_core noiseF sinF sqrtF x y z size).material_colors.all
        (fun c => c >>> 24 == 255) = true) ∧
    ((generate_mesh_core noiseF sinF sqrtF x y z size).colors.all
        (fun c => c >>> 24 == 255) = true) := by
  rw [generate_mesh_core_eq]
  dsimp only
  have hvl : (meshVoxels noiseF sinF x y z size).length =
      (size + 1) * (size + 1) * (size + 1) := by
    unfold meshVoxels
    rw [buildVoxels_length, hlen]
  have h8 : 8 * (size / COMPRESSION) ≤ size := by
    unfold COMPRESSION
    have := Nat.div_mul_le_self size 8
    omega
  have hmain : ((groupIds (size / COMPRESSION)).flatMap (fun g =>
      (meshletVerts sqrtF (meshVoxels noiseF sinF x y z size) size (chunkWP x y z size) g).map
        MVertex.color)).all (fun c => c >>> 24 == 255) = true := by
    rw [List.all_eq_true]
    intro c hc
    obtain ⟨g, hg, hcg⟩ := List.mem_flatMap.mp hc
    obtain ⟨v, hv, hvc⟩ := List.mem_map.mp hcg
    obtain ⟨w, hw, hwc⟩ := meshletVerts_color_mem sqrtF (meshVoxels noiseF sinF x y z size)
      size (chunkWP x y z size) (size / COMPRESSION) g hg h8 hvl v hv
    have halpha := buildVoxels_alpha sinF (size + 1) (noiseF x y z size) w hw
    rw [← hvc, hwc]
    exact beq_iff_eq.mpr halpha
  exact ⟨hmain, hmain⟩


/-- C4: safe accessor sentinel — for any lattice and any signed coordinate
triple with a component outside `[0, resolution]` the safe density
accessor returns exactly 1.0 and the safe colour accessor exactly
0x808080FF; for coordinates inside they return the stored sample at flat
index `z*size*size + y*size + x` with `size = resolution + 1`. -/
theorem get_voxel_safe_spec (voxels : List VoxelData) (res : Nat) (px py pz : Int) :
    ((px < 0 ∨ py < 0 ∨ pz < 0 ∨ (res : Int) < px ∨ (res : Int) < py ∨ (res : Int) < pz) →
      get_voxel_density_safe voxels (px, py, pz) res = 1 ∧
        get_voxel_color_safe voxels (px, py, pz) res = 0x808080FF) ∧
    ((0 ≤ px ∧ px ≤ res ∧ 0 ≤ py ∧ py ≤ res ∧ 0 ≤ pz ∧ pz ≤ res) →
      get_voxel_density_safe voxels (px, py, pz) res =
          (voxels.getD (pz.toNat * (res + 1) * (res + 1) + py.toNat * (res + 1) + px.toNat)
            ⟨0, 0⟩).density ∧
        get_voxel_color_safe voxels (px, py, pz) res =
          (voxels.getD (pz.toNat * (res + 1) * (res + 1) + py.toNat * (res + 1) + px.toNat)
            ⟨0, 0⟩).color) := by
  constructor
  · intro h
    have hc : px < 0 ∨ py < 0 ∨ pz < 0 ∨ (res : Int) + 1 ≤ px ∨ (res : Int) + 1 ≤ py ∨
        (res : Int) + 1 ≤ pz := by omega
    dsimp only [get_voxel_density_safe, get_voxel_color_safe]
    rw [if_pos hc, if_pos hc]
    exact ⟨rfl, rfl⟩
  · intro h
    have hc : ¬(px < 0 ∨ py < 0 ∨ pz < 0 ∨ (res : Int) + 1 ≤ px ∨ (res : Int) + 1 ≤ py ∨
        (res : Int) + 1 ≤ pz) := by omega
    dsimp only [get_voxel_density_safe, get_voxel_color_safe]
    rw [if_neg hc, if_neg hc]
    exact ⟨rfl, rfl⟩

/-- C9: gradient-normal characterization — with the `f32` square root
abstracted as `sqrtF`, whenever the computed magnitude of the
central-difference gradient exceeds 1e-4, `calculate_gradient` returns the
negation of the gradient divided by that magnitude (the negated normalized
gradient); whenever the magnitude is at most 1e-4 — not only when it is
zero — it returns exactly (0, 1, 0). -/
theorem calculate_gradient_spec (sqrtF : ℚ → ℚ) (voxels : List VoxelData)
    (pos : Int × Int × Int) (gs : Nat) :
    (1 / 10000 < sqrtF ((central_difference voxels pos gs).1 * (central_difference voxels pos gs).1 +
          (central_difference voxels pos gs).2.1 * (central_difference voxels pos gs).2.1 +
          (central_difference voxels pos gs).2.2 * (central_difference voxels pos gs).2.2) →
      calculate_gradient sqrtF voxels pos gs =
        (-(central_difference voxels pos gs).1 /
            sqrtF ((central_difference voxels pos gs).1 * (central_difference voxels pos gs).1 +
              (central_difference voxels pos gs).2.1 * (central_difference voxels pos gs).2.1 +
              (central_difference voxels pos gs).2.2 * (central_difference voxels pos gs).2.2),
          -(central_difference voxels pos gs).2.1 /
            sqrtF ((central_difference voxels pos gs).1 * (central_difference voxels pos gs).1 +
              (central_difference voxels pos gs).2.1 * (central_difference voxels pos gs).2.1 +
              (central_difference voxels pos gs).2.2 * (central_difference voxels pos gs).2.2),
          -(central_difference voxels pos gs).2.2 /
            sqrtF ((central_difference voxels pos gs).1 * (central_difference voxels pos gs).1 +
              (central_difference voxels pos gs).2.1 * (central_difference voxels pos gs).2.1 +
              (central_difference voxels pos gs).2.2 * (central_difference voxels pos gs).2.2))) ∧
    (sqrtF ((central_difference voxels pos gs).1 * (central_difference voxels pos gs).1 +
          (central_difference voxels pos gs).2.1 * (central_difference voxels pos gs).2.1 +
          (central_difference voxels pos gs).2.2 * (central_difference voxels pos gs).2.2) ≤
        1 / 10000 →
      calculate_gradient sqrtF voxels pos gs = (0, 1, 0)) := by
  unfold calculate_gradient central_difference
  constructor
  · intro h
    rw [if_pos h]
  · intro h
    rw [if_neg (by exact not_lt.mpr h)]


/-- Witness for C4 at a concrete one-sample lattice: position (1,0,0) is
out of bounds for resolution 0 (sentinels returned), position (0,0,0) is
in bounds (stored sample returned). -/
theorem get_voxel_safe_spec_witness :
    (get_voxel_density_safe [⟨5, 7⟩] (1, 0, 0) 0 = 1 ∧
      get_voxel_color_safe [⟨5, 7⟩] (1, 0, 0) 0 = 0x808080FF) ∧
    (get_voxel_density_safe [⟨5, 7⟩] (0, 0, 0) 0 = (([⟨5, 7⟩] : List VoxelData).getD 0 ⟨0, 0⟩).density ∧
      get_voxel_color_safe [⟨5, 7⟩] (0, 0, 0) 0 = (([⟨5, 7⟩] : List VoxelData).getD 0 ⟨0, 0⟩).color) :=
  ⟨(get_voxel_safe_spec [⟨5, 7⟩] 0 1 0 0).1 (by norm_num),
    (get_voxel_safe_spec [⟨5, 7⟩] 0 0 0 0).2 (by norm_num)⟩

/-- Witness for C9 at concrete lattices: a 2³ lattice with one corner of
density −3 yields gradient magnitude 16 (with `sqrt0` as the abstracted
root), hence the negated normalized gradient (1/4, 0, 0); a flat lattice
yields magnitude 0, hence the fallback (0, 1, 0). -/
theorem calculate_gradient_spec_witness :
    calculate_gradient sqrt0 [⟨1, 0⟩, ⟨-3, 0⟩, ⟨1, 0⟩, ⟨1, 0⟩, ⟨1, 0⟩, ⟨1, 0⟩, ⟨1, 0⟩, ⟨1, 0⟩]
        (0, 0, 0) 1 = (1 / 4, 0, 0) ∧
    calculate_gradient sqrt0 [⟨-1, 0⟩] (0, 0, 0) 0 = (0, 1, 0) := by
  have hcd : central_difference
      [⟨1, 0⟩, ⟨-3, 0⟩, ⟨1, 0⟩, ⟨1, 0⟩, ⟨1, 0⟩, ⟨1, 0⟩, ⟨1, 0⟩, ⟨1, 0⟩] (0, 0, 0) 1 =
      (-4, 0, 0) := by
    simp [central_difference, get_voxel_density_safe, get_voxel_density, get_voxel_data]
    norm_num
  have hcd0 : central_difference [⟨-1, 0⟩] (0, 0, 0) 0 = (0, 0, 0) := by
    simp [central_difference, get_voxel_density_safe, get_voxel_density, get_voxel_data]
  constructor
  · have h := (calculate_gradient_spec sqrt0
        [⟨1, 0⟩, ⟨-3, 0⟩, ⟨1, 0⟩, ⟨1, 0⟩, ⟨1, 0⟩, ⟨1, 0⟩, ⟨1, 0⟩, ⟨1, 0⟩] (0, 0, 0) 1).1
      (by rw [hcd]; norm_num [sqrt0])
    rw [h, hcd]
    norm_num [sqrt0]
  · exact (calculate_gradient_spec sqrt0 [⟨-1, 0⟩] (0, 0, 0) 0).2
      (by rw [hcd0]; norm_num [sqrt0])

/-- Witness for C10 at a concrete size-8 chunk over a 729-sample lattice
with one inside corner: the lattice-size hypothesis is discharged by
computation. -/
theorem mesh_opaque_colors_witness :
    ((generate_mesh_core (fun _ _ _ _ => (List.range 729).map (fun i => if i = 0 then (-1 : ℚ) else 1))
        sin0 sqrt0 0 0 0 8).material_colors.all (fun c => c >>> 24 == 255) = true) ∧
    ((generate_mesh_core (fun _ _ _ _ => (List.range 729).map (fun i => if i = 0 then (-1 : ℚ) else 1))
        sin0 sqrt0 0 0 0 8).colors.all (fun c => c >>> 24 == 255) = true) :=
  mesh_opaque_colors (fun _ _ _ _ => (List.range 729).map (fun i => if i = 0 then (-1 : ℚ) else 1))
    sin0 sqrt0 0 0 0 8 (by rw [List.length_map, List.length_range])

